import Mathlib

/-!
Verification development for the energy-visualization Sankey library.

The TypeScript sources are shallowly embedded: machine numbers become exact
rationals, the string keys of the fixed fuel/sector catalogs become the
inductive type EName, dynamic property indexing becomes total getter/setter
functions on structures, and the stateful services become pure functions on
explicit state values.  The two float square-root constants SR3 and HSR3 of
ConfigurationService (Math.sqrt 3 and Math.sqrt 3 / 2) are irrational in
ideal arithmetic, so the embedding carries them as rational parameters of
ConfigM; every theorem below holds for all values of these parameters.
-/

/-- The fixed catalog of fuel and sector keys used by the library
(ConfigurationService.FUELS / BOXES), together with the waste sentinel. -/
inductive EName where
  | elec | heat | res | ag | indus | trans
  | solar | nuclear | hydro | wind | geo | gas | coal | bio | petro
  | waste
deriving DecidableEq, Repr

/-- EnergySectorBreakdown (src/types/index.ts): the per-sector quantities of
one fuel, plus the dynamically attached field named total that
GraphService.calculateGraphY writes through the index signature. -/
structure Breakdown where
  elec : ℚ
  res : ℚ
  ag : ℚ
  indus : ℚ
  trans : ℚ
  heat : ℚ
  total : ℚ
deriving DecidableEq, Repr

/-- Dynamic read of a sector key from a breakdown object, as in
fuelObj[boxName].  Only the six sector keys are ever used; other keys give 0
(absent property). -/
def Breakdown.get (o : Breakdown) : EName → ℚ
  | .elec => o.elec
  | .res => o.res
  | .ag => o.ag
  | .indus => o.indus
  | .trans => o.trans
  | .heat => o.heat
  | _ => 0

/-- EnergyDataPoint: one record per year. -/
structure EnergyRec where
  year : Int
  milestone : Option String
  elec : Breakdown
  waste : Breakdown
  solar : Breakdown
  nuclear : Breakdown
  hydro : Breakdown
  wind : Breakdown
  geo : Breakdown
  gas : Breakdown
  coal : Breakdown
  bio : Breakdown
  petro : Breakdown
  heat : Breakdown
deriving DecidableEq, Repr

/-- Dynamic read of a fuel key from a record, as in yearData[fuelName].  The
four sector-only keys are never read as fuels; they give an all-zero
breakdown. -/
def EnergyRec.fuelObj (r : EnergyRec) : EName → Breakdown
  | .elec => r.elec
  | .heat => r.heat
  | .solar => r.solar
  | .nuclear => r.nuclear
  | .hydro => r.hydro
  | .wind => r.wind
  | .geo => r.geo
  | .gas => r.gas
  | .coal => r.coal
  | .bio => r.bio
  | .petro => r.petro
  | .waste => r.waste
  | _ => ⟨0, 0, 0, 0, 0, 0, 0⟩

/-- Dynamic update of a fuel key of a record (used for the
fuelObj.total = 0 write in GraphService.calculateGraphY). -/
def EnergyRec.updateFuel (r : EnergyRec) (n : EName) (f : Breakdown → Breakdown) : EnergyRec :=
  match n with
  | .elec => { r with elec := f r.elec }
  | .heat => { r with heat := f r.heat }
  | .solar => { r with solar := f r.solar }
  | .nuclear => { r with nuclear := f r.nuclear }
  | .hydro => { r with hydro := f r.hydro }
  | .wind => { r with wind := f r.wind }
  | .geo => { r with geo := f r.geo }
  | .gas => { r with gas := f r.gas }
  | .coal => { r with coal := f r.coal }
  | .bio => { r with bio := f r.bio }
  | .petro => { r with petro := f r.petro }
  | .waste => { r with waste := f r.waste }
  | _ => r

/-! ### ConfigurationService constants -/

def SCALE : ℚ := 1 / 50
def BOX_WIDTH : ℚ := 120
def LEFT_X : ℚ := 10
def TOP_Y : ℚ := 100
def ELEC_BOX_X : ℚ := 300
def ELEC_BOX_Y : ℚ := 120
def HEAT_BOX_X : ℚ := 750
def HEAT_BOX_Y : ℚ := 200
def LEFT_GAP : ℚ := 30
def RIGHT_GAP : ℚ := LEFT_GAP * (21 / 10)
def PATH_GAP : ℚ := 20
def ELEC_GAP : ℚ := 19

def FUELS : List EName :=
  [.elec, .heat, .solar, .nuclear, .hydro, .wind, .geo, .gas, .coal, .bio, .petro]

def BOX_NAMES : List EName := [.elec, .res, .ag, .indus, .trans, .heat]

def FUEL_NAMES : List EName := FUELS

/-- ConfigurationService.BOXES_DEFAULT_FLOW_PATHS_ORDER. -/
def BOXES_DEFAULT_FLOW_PATHS_ORDER : EName → Int
  | .elec => 1 | .res => 2 | .ag => 3 | .indus => 4 | .trans => 5 | .heat => 6
  | _ => 0

/-- ConfigurationService.HEAT_BOX_FIRST_FLOW_PATHS_ORDER. -/
def HEAT_BOX_FIRST_FLOW_PATHS_ORDER : EName → Int
  | .elec => 1 | .heat => 2 | .res => 3 | .ag => 4 | .indus => 5 | .trans => 6
  | _ => 0

/-- ConfigurationService.FLOW_PATHS_ORDER: gas, coal and petro route through
the heat hub first; every other fuel uses the default sector order. -/
def FLOW_PATHS_ORDER : EName → EName → Int
  | .gas => HEAT_BOX_FIRST_FLOW_PATHS_ORDER
  | .coal => HEAT_BOX_FIRST_FLOW_PATHS_ORDER
  | .petro => HEAT_BOX_FIRST_FLOW_PATHS_ORDER
  | _ => BOXES_DEFAULT_FLOW_PATHS_ORDER

/-- The run-time configuration state the embedded services need:
hasHeatData (set by validation), the dynamic canvas WIDTH, and the two
square-root constants SR3 and HSR3 carried as parameters (see file header). -/
structure ConfigM where
  hasHeatData : Bool
  width : ℚ
  sr3 : ℚ
  hsr3 : ℚ
deriving DecidableEq, Repr

/-! ### DataValidationService and DataService -/

/-- DataValidationService.validateData over the typed embedding.  The
structural checks (all eleven required fuel objects present, every required
breakdown key present and numeric) are enforced by the EnergyRec type itself;
what remains observable is that the array is nonempty and that every
point.year is truthy.  Note validation checks neither the sign of values nor
duplicate years. -/
def validatedData (data : List EnergyRec) : Prop :=
  data ≠ [] ∧ ∀ r ∈ data, r.year ≠ 0

/-- The stable ascending sort by year performed once in the DataService
constructor ([...energyData].sort((a, b) => a.year - b.year)). -/
def sortByYear (data : List EnergyRec) : List EnergyRec :=
  data.insertionSort (fun a b => a.year ≤ b.year)

structure DataServiceM where
  data : List EnergyRec
  years : List Int
  yearsLength : Nat
  firstYear : Int
  lastYear : Int
deriving DecidableEq, Repr

/-- JavaScript Array.prototype.indexOf on the years array: first index of the
value, or -1 when absent. -/
def jsIndexOf (l : List Int) (y : Int) : Int :=
  match l.findIdx? (fun x => x == y) with
  | some i => (i : Int)
  | none => -1

namespace DataService

/-- The DataService constructor after validation: sort, then derive the
years index and the range boundaries.  On the empty list the source would
read years[0] as undefined; the embedding uses 0 there (validation rejects
empty input before this point). -/
def mk (input : List EnergyRec) : DataServiceM :=
  let d := sortByYear input
  let ys := d.map (fun r => r.year)
  { data := d
    years := ys
    yearsLength := ys.length
    firstYear := ys.headD 0
    lastYear := ys.getD (ys.length - 1) 0 }

/-- DataService.getYearIndex: years.indexOf(year). -/
def getYearIndex (ds : DataServiceM) (year : Int) : Int :=
  jsIndexOf ds.years year

/-- DataService.getYearDataByIndex with its bounds check. -/
def getYearDataByIndex (ds : DataServiceM) (index : Int) : Option EnergyRec :=
  if index < 0 ∨ (ds.data.length : Int) ≤ index then none
  else ds.data.get? index.toNat

end DataService

/-! ### AnimationService -/

/-- The AnimationState record of the animation service; animationTimer is
true exactly when the setInterval timer is registered. -/
structure AnimState where
  currentYearIndex : Nat
  isAnimating : Bool
  animationTimer : Bool
  speed : ℚ
deriving DecidableEq, Repr

namespace AnimationService

/-- AnimationService.setYear: look the year up with getYearIndex; on -1 warn
and return leaving the state untouched, otherwise store the new index.  The
slider/DOM updates and the year.changed event do not touch the state. -/
def setYear (ds : DataServiceM) (st : AnimState) (year : Int) : AnimState :=
  let yearIndex := DataService.getYearIndex ds year
  if yearIndex = -1 then st
  else { st with currentYearIndex := yearIndex.toNat }

/-- AnimationService.getCurrentYear:
years[currentYearIndex] || firstYear (JavaScript falsy fallback, so both an
out-of-range index and a stored year 0 yield firstYear). -/
def getCurrentYear (ds : DataServiceM) (st : AnimState) : Int :=
  match ds.years.get? st.currentYearIndex with
  | some y => if y = 0 then ds.firstYear else y
  | none => ds.firstYear

/-- AnimationService.play: guarded by isAnimating; sets the flag and
registers the interval timer. -/
def play (st : AnimState) : AnimState :=
  if st.isAnimating then st
  else { st with isAnimating := true, animationTimer := true }

/-- AnimationService.pause: guarded by isAnimating; clears the flag, then
clears the timer when one is registered. -/
def pause (st : AnimState) : AnimState :=
  if st.isAnimating = false then st
  else
    let st1 := { st with isAnimating := false }
    if st1.animationTimer then { st1 with animationTimer := false } else st1

/-- AnimationService.nextYear: when not at the last index, increment the
index and run setYear on the year now stored at it. -/
def nextYear (ds : DataServiceM) (st : AnimState) : AnimState :=
  if st.currentYearIndex < ds.yearsLength - 1 then
    let st1 := { st with currentYearIndex := st.currentYearIndex + 1 }
    setYear ds st1 (ds.years.getD st1.currentYearIndex 0)
  else st

/-- AnimationService.nextFrame, the body of each interval tick: when the
index is at (or past) the end it is first reset to 0; without loopAnimation
the service then pauses and returns, otherwise it falls through to
nextYear. -/
def nextFrame (loopAnimation : Bool) (ds : DataServiceM) (st : AnimState) : AnimState :=
  if ds.yearsLength ≤ st.currentYearIndex + 1 then
    let st1 := { st with currentYearIndex := 0 }
    if loopAnimation = false then pause st1
    else nextYear ds st1
  else nextYear ds st

/-- AnimationService.setSpeed: a non-positive speed throws before any state
is written; a positive speed is stored, and when the animation is playing the
service pauses (the matching play is re-issued later from a setTimeout
callback, outside the synchronous effect modelled here). -/
def setSpeed (st : AnimState) (speed : ℚ) : Except String AnimState :=
  if speed ≤ 0 then Except.error "Animation speed must be positive"
  else
    let st1 := { st with speed := speed }
    Except.ok (if st1.isAnimating then pause st1 else st1)

end AnimationService

/-! ### Sankey facade (destroy) -/

/-- The lifecycle state of the Sankey facade object.  The animation service
state is embedded in the anim field: even after the services bag is emptied,
the interval closure keeps the service (and its timer registration) alive. -/
structure SnkState where
  destroyed : Bool
  initialized : Bool
  subsCount : Nat
  busHandlers : Nat
  hasSvg : Bool
  hasTooltip : Bool
  hasServices : Bool
  anim : AnimState
deriving DecidableEq, Repr

namespace Sankey

/-- Sankey.play: delegates to the animation service when initialized. -/
def play (s : SnkState) : SnkState :=
  if s.initialized = false then s
  else { s with anim := AnimationService.play s.anim }

/-- Sankey.destroy: early-returns when already destroyed; unsubscribes the
facade subscriptions, clears the event bus, removes svg and tooltip, empties
the services bag and flips the lifecycle flags.  It never calls
AnimationService.pause or cleanup, so the anim field is untouched. -/
def destroy (s : SnkState) : SnkState :=
  if s.destroyed then s
  else
    { s with
      subsCount := 0
      busHandlers := 0
      hasSvg := false
      hasTooltip := false
      hasServices := false
      destroyed := true
      initialized := false }

end Sankey

/-! ### SummaryService -/

/-- YearTotals (src/types/index.ts).  The heat field is meaningful only when
hasHeatData is set; without heat data the source object has no heat property
and never reads it, the embedding keeps it at 0. -/
structure YearTotals where
  year : Int
  elec : ℚ
  res : ℚ
  ag : ℚ
  indus : ℚ
  trans : ℚ
  solar : ℚ
  nuclear : ℚ
  hydro : ℚ
  wind : ℚ
  geo : ℚ
  gas : ℚ
  coal : ℚ
  bio : ℚ
  petro : ℚ
  fuel_height : ℚ
  waste : ℚ
  heat : ℚ
  milestone : Option String
deriving DecidableEq, Repr

/-- Dynamic read total[name] for the box and fuel keys. -/
def YearTotals.get (t : YearTotals) : EName → ℚ
  | .elec => t.elec
  | .res => t.res
  | .ag => t.ag
  | .indus => t.indus
  | .trans => t.trans
  | .heat => t.heat
  | .solar => t.solar
  | .nuclear => t.nuclear
  | .hydro => t.hydro
  | .wind => t.wind
  | .geo => t.geo
  | .gas => t.gas
  | .coal => t.coal
  | .bio => t.bio
  | .petro => t.petro
  | .waste => t.waste

/-- Dynamic compound assignment total[name] += q. -/
def YearTotals.add (t : YearTotals) (n : EName) (q : ℚ) : YearTotals :=
  match n with
  | .elec => { t with elec := t.elec + q }
  | .res => { t with res := t.res + q }
  | .ag => { t with ag := t.ag + q }
  | .indus => { t with indus := t.indus + q }
  | .trans => { t with trans := t.trans + q }
  | .heat => { t with heat := t.heat + q }
  | .solar => { t with solar := t.solar + q }
  | .nuclear => { t with nuclear := t.nuclear + q }
  | .hydro => { t with hydro := t.hydro + q }
  | .wind => { t with wind := t.wind + q }
  | .geo => { t with geo := t.geo + q }
  | .gas => { t with gas := t.gas + q }
  | .coal => { t with coal := t.coal + q }
  | .bio => { t with bio := t.bio + q }
  | .petro => { t with petro := t.petro + q }
  | .waste => { t with waste := t.waste + q }

/-- YearFlows: per-sector counters of nonzero flows. -/
structure YearFlows where
  year : Int
  elec : ℚ
  res : ℚ
  ag : ℚ
  indus : ℚ
  trans : ℚ
  heat : ℚ
deriving DecidableEq, Repr

/-- flow[boxName]++ for the six sector keys. -/
def YearFlows.incr (fl : YearFlows) (n : EName) : YearFlows :=
  match n with
  | .elec => { fl with elec := fl.elec + 1 }
  | .res => { fl with res := fl.res + 1 }
  | .ag => { fl with ag := fl.ag + 1 }
  | .indus => { fl with indus := fl.indus + 1 }
  | .trans => { fl with trans := fl.trans + 1 }
  | .heat => { fl with heat := fl.heat + 1 }
  | _ => fl

/-- YearLabels: per-fuel label Y coordinates. -/
structure YearLabels where
  year : Int
  elec : ℚ
  res : ℚ
  ag : ℚ
  indus : ℚ
  trans : ℚ
  solar : ℚ
  nuclear : ℚ
  hydro : ℚ
  wind : ℚ
  geo : ℚ
  gas : ℚ
  coal : ℚ
  bio : ℚ
  petro : ℚ
  heat : ℚ
deriving DecidableEq, Repr

/-- label[fuelName] = q for the fuel keys. -/
def YearLabels.set (lb : YearLabels) (n : EName) (q : ℚ) : YearLabels :=
  match n with
  | .elec => { lb with elec := q }
  | .res => { lb with res := q }
  | .ag => { lb with ag := q }
  | .indus => { lb with indus := q }
  | .trans => { lb with trans := q }
  | .heat => { lb with heat := q }
  | .solar => { lb with solar := q }
  | .nuclear => { lb with nuclear := q }
  | .hydro => { lb with hydro := q }
  | .wind => { lb with wind := q }
  | .geo => { lb with geo := q }
  | .gas => { lb with gas := q }
  | .coal => { lb with coal := q }
  | .bio => { lb with bio := q }
  | .petro => { lb with petro := q }
  | .waste => lb

namespace SummaryService

/-- The fresh YearTotals object built at the top of the years loop of
SummaryService.buildTotals. -/
def initTotals (r : EnergyRec) : YearTotals :=
  { year := r.year, elec := 0, res := 0, ag := 0, indus := 0, trans := 0,
    solar := 0, nuclear := 0, hydro := 0, wind := 0, geo := 0, gas := 0,
    coal := 0, bio := 0, petro := 0, fuel_height := 0, waste := 0,
    heat := 0, milestone := none }

/-- The fresh YearFlows object of the years loop. -/
def initFlows (r : EnergyRec) : YearFlows :=
  { year := r.year, elec := 0, res := 0, ag := 0, indus := 0, trans := 0, heat := 0 }

/-- The fresh YearLabels object of the years loop (elec preset to ELEC_BOX_Y,
heat preset to HEAT_BOX_Y when heat data is present). -/
def initLabels (hasHeat : Bool) (r : EnergyRec) : YearLabels :=
  { year := r.year, elec := ELEC_BOX_Y, res := 0, ag := 0, indus := 0, trans := 0,
    solar := 0, nuclear := 0, hydro := 0, wind := 0, geo := 0, gas := 0,
    coal := 0, bio := 0, petro := 0,
    heat := if hasHeat then HEAT_BOX_Y else 0 }

/-- The innermost (sectors) loop body of SummaryService.buildTotals: count
the nonzero flow, add the value into the sector total and into the fuel
total, and on the first processed fuel (j = 2) fold the electricity
consumption and the waste heat (and, with heat data, the heat consumption)
of the sector into the sector total. -/
def totalsSectorStep (hasHeat : Bool) (r : EnergyRec) (j : Nat) (fuelName : EName)
    (acc : YearTotals × YearFlows) (boxName : EName) : YearTotals × YearFlows :=
  if hasHeat = false ∧ boxName = .heat then acc
  else
    let fuelObj := r.fuelObj fuelName
    let flow := if 0 < fuelObj.get boxName then acc.2.incr boxName else acc.2
    let t := acc.1.add boxName (fuelObj.get boxName)
    let t := t.add fuelName (fuelObj.get boxName)
    let t :=
      if j = 2 ∧ boxName ≠ .elec then
        (t.add boxName (r.elec.get boxName)).add boxName (r.waste.get boxName)
      else t
    let t :=
      if j = 2 ∧ boxName ≠ .heat ∧ hasHeat = true then
        t.add boxName (r.heat.get boxName)
      else t
    (t, flow)

/-- The middle (fuels) loop body of SummaryService.buildTotals: run the
sector loop, then place the fuel label from the cumulative height, refresh
the elec (and heat) labels, and grow fuel_height. -/
def totalsFuelStep (hasHeat : Bool) (r : EnergyRec)
    (acc : YearTotals × YearFlows × YearLabels) (jf : Nat × EName) :
    YearTotals × YearFlows × YearLabels :=
  let j := jf.1
  let fuelName := jf.2
  if hasHeat = false ∧ fuelName = .heat then acc
  else
    let p := BOX_NAMES.foldl (totalsSectorStep hasHeat r j fuelName) (acc.1, acc.2.1)
    let t := p.1
    let lb := acc.2.2.set fuelName (TOP_Y + t.fuel_height - 5)
    let lb := { lb with elec := ELEC_BOX_Y - t.elec * SCALE }
    let lb := if hasHeat then { lb with heat := HEAT_BOX_Y - t.heat * SCALE } else lb
    let t := { t with fuel_height := t.fuel_height + t.get fuelName * SCALE + LEFT_GAP }
    (t, p.2, lb)

/-- One iteration of the years loop of SummaryService.buildTotals: the fuels
loop starts at index j = 2, skipping electricity (0) and heat (1); after it,
the waste total is summed over the end-use sectors (plus the heat sector when
heat data is present) and the milestone is carried over. -/
def buildYearEntry (hasHeat : Bool) (r : EnergyRec) :
    YearTotals × YearFlows × YearLabels :=
  let acc := (FUELS.enum.drop 2).foldl (totalsFuelStep hasHeat r)
    (initTotals r, initFlows r, initLabels hasHeat r)
  let t := acc.1
  let t := { t with waste := r.waste.res + r.waste.ag + r.waste.indus + r.waste.trans }
  let t := if hasHeat then { t with waste := t.waste + r.waste.heat } else t
  let t := { t with milestone := r.milestone }
  (t, acc.2.1, acc.2.2)

/-- SummaryService.buildTotals, totals component (one YearTotals per record,
in dataset order). -/
def buildTotals (hasHeat : Bool) (data : List EnergyRec) : List YearTotals :=
  data.map (fun r => (buildYearEntry hasHeat r).1)

/-- SummaryService.buildTotals, flows component. -/
def buildFlows (hasHeat : Bool) (data : List EnergyRec) : List YearFlows :=
  data.map (fun r => (buildYearEntry hasHeat r).2.1)

/-- SummaryService.buildTotals, labels component. -/
def buildLabels (hasHeat : Bool) (data : List EnergyRec) : List YearLabels :=
  data.map (fun r => (buildYearEntry hasHeat r).2.2)

/-- The per-year primary-energy sum stored into yearSums (electricity and
heat deliberately excluded). -/
def yearSumOf (t : YearTotals) : ℚ :=
  t.bio + t.coal + t.gas + t.geo + t.hydro + t.nuclear + t.petro + t.solar + t.wind

/-- SummaryService.buildTotals, yearSums component, keyed by year. -/
def buildYearSums (hasHeat : Bool) (data : List EnergyRec) : List (Int × ℚ) :=
  data.map (fun r => (r.year, yearSumOf (buildYearEntry hasHeat r).1))

end SummaryService

/-- JavaScript Math.max over a spread array.  On the empty list the source
yields negative infinity; validated data is nonempty so that case is
unreachable and the embedding returns 0 there. -/
def listMaxQ : List ℚ → ℚ
  | [] => 0
  | x :: xs => xs.foldl max x

/-- BoxMaxes: the per-sector maxima over all years. -/
structure BoxMaxes where
  elec : ℚ
  res : ℚ
  ag : ℚ
  indus : ℚ
  trans : ℚ
  heat : ℚ
deriving DecidableEq, Repr

/-- SummaryService.buildMaxes: Math.max over the per-year totals of each of
the six configured boxes. -/
def SummaryService.buildMaxes (totals : List YearTotals) : BoxMaxes :=
  { elec := listMaxQ (totals.map (fun t => t.elec))
    res := listMaxQ (totals.map (fun t => t.res))
    ag := listMaxQ (totals.map (fun t => t.ag))
    indus := listMaxQ (totals.map (fun t => t.indus))
    trans := listMaxQ (totals.map (fun t => t.trans))
    heat := listMaxQ (totals.map (fun t => t.heat)) }

/-- BoxTops: the stacked vertical anchors of the right-hand sector boxes. -/
structure BoxTopsM where
  res : ℚ
  heat : ℚ
  ag : ℚ
  indus : ℚ
  trans : ℚ
deriving DecidableEq, Repr

/-- Dynamic read boxTops[boxName] for the stacked sector boxes. -/
def BoxTopsM.get (bt : BoxTopsM) : EName → ℚ
  | .res => bt.res
  | .heat => bt.heat
  | .ag => bt.ag
  | .indus => bt.indus
  | .trans => bt.trans
  | _ => 0

/-- SummaryService.buildBoxTops: res anchored at ELEC_BOX_Y + 50, heat at
HEAT_BOX_Y + 50, then sequential stacking by the previous maximum scaled
height plus RIGHT_GAP. -/
def SummaryService.buildBoxTops (maxes : BoxMaxes) : BoxTopsM :=
  let res := ELEC_BOX_Y + 50
  let heat := HEAT_BOX_Y + 50
  let ag := res + maxes.res * SCALE + RIGHT_GAP
  let indus := ag + maxes.ag * SCALE + RIGHT_GAP
  let trans := indus + maxes.indus * SCALE + RIGHT_GAP
  { res := res, heat := heat, ag := ag, indus := indus, trans := trans }

/-- SummaryData as assembled by SummaryService.buildSummary. -/
structure SummaryM where
  totals : List YearTotals
  flows : List YearFlows
  labels : List YearLabels
  maxes : BoxMaxes
  boxTops : BoxTopsM
  yearSums : List (Int × ℚ)
deriving DecidableEq, Repr

/-- SummaryService.buildSummary: buildTotals, then buildMaxes, then
buildBoxTops. -/
def SummaryService.buildSummary (hasHeat : Bool) (data : List EnergyRec) : SummaryM :=
  let totals := SummaryService.buildTotals hasHeat data
  { totals := totals
    flows := SummaryService.buildFlows hasHeat data
    labels := SummaryService.buildLabels hasHeat data
    maxes := SummaryService.buildMaxes totals
    boxTops := SummaryService.buildBoxTops (SummaryService.buildMaxes totals)
    yearSums := SummaryService.buildYearSums hasHeat data }

/-! ### GraphService -/

structure GraphPoint where
  x : ℚ
  y : ℚ
deriving DecidableEq, Repr

/-- GraphStroke (src/types/index.ts): one directed flow path. -/
structure GraphStroke where
  fuel : EName
  box : EName
  stroke : ℚ
  value : ℚ
  a : GraphPoint
  b : GraphPoint
  c : GraphPoint
  cc : GraphPoint
  d : GraphPoint
deriving DecidableEq, Repr

/-- The vertical offsets tracked per sector box (OffestY). -/
structure OffY where
  elec : ℚ
  res : ℚ
  ag : ℚ
  indus : ℚ
  trans : ℚ
  heat : ℚ
deriving DecidableEq, Repr

def OffY.get (o : OffY) : EName → ℚ
  | .elec => o.elec
  | .res => o.res
  | .ag => o.ag
  | .indus => o.indus
  | .trans => o.trans
  | .heat => o.heat
  | _ => 0

/-- offsets.y[boxName] += q. -/
def OffY.add (o : OffY) (n : EName) (q : ℚ) : OffY :=
  match n with
  | .elec => { o with elec := o.elec + q }
  | .res => { o with res := o.res + q }
  | .ag => { o with ag := o.ag + q }
  | .indus => { o with indus := o.indus + q }
  | .trans => { o with trans := o.trans + q }
  | .heat => { o with heat := o.heat + q }
  | _ => o

/-- offsets.y[boxName] = q (plain assignment, used by the X-refinement
passes). -/
def OffY.set (o : OffY) (n : EName) (q : ℚ) : OffY :=
  match n with
  | .elec => { o with elec := q }
  | .res => { o with res := q }
  | .ag => { o with ag := q }
  | .indus => { o with indus := q }
  | .trans => { o with trans := q }
  | .heat => { o with heat := q }
  | _ => o

/-- The horizontal offsets (OffestX): initialized to zero and never written
by any pass. -/
structure OffX where
  solar : ℚ
  nuclear : ℚ
  hydro : ℚ
  wind : ℚ
  geo : ℚ
  gas : ℚ
  coal : ℚ
  bio : ℚ
  petro : ℚ
deriving DecidableEq, Repr

structure Offsets where
  x : OffX
  y : OffY
deriving DecidableEq, Repr

/-- GraphData: the per-year output of the Flow Geometry Engine. -/
structure GraphData where
  year : Int
  graph : List GraphStroke
  totals : YearTotals
  flows : YearFlows
  offsets : Offsets
deriving DecidableEq, Repr

/-- A zero-valued placeholder stroke for out-of-range array reads (the
passes only index within bounds, so it is never actually produced). -/
def junkStroke : GraphStroke :=
  { fuel := .waste, box := .waste, stroke := 0, value := 0,
    a := ⟨0, 0⟩, b := ⟨0, 0⟩, c := ⟨0, 0⟩, cc := ⟨0, 0⟩, d := ⟨0, 0⟩ }

/-- Placeholder YearTotals for the (unreachable) case where the per-year
filter of summary.totals finds nothing. -/
def junkTotals : YearTotals :=
  { year := 0, elec := 0, res := 0, ag := 0, indus := 0, trans := 0,
    solar := 0, nuclear := 0, hydro := 0, wind := 0, geo := 0, gas := 0,
    coal := 0, bio := 0, petro := 0, fuel_height := 0, waste := 0,
    heat := 0, milestone := none }

/-- Placeholder YearFlows for the same unreachable case. -/
def junkFlows : YearFlows :=
  { year := 0, elec := 0, res := 0, ag := 0, indus := 0, trans := 0, heat := 0 }

/-- All-zero record used as the default of out-of-range record reads. -/
def junkRec : EnergyRec :=
  { year := 0, milestone := none,
    elec := ⟨0, 0, 0, 0, 0, 0, 0⟩, waste := ⟨0, 0, 0, 0, 0, 0, 0⟩,
    solar := ⟨0, 0, 0, 0, 0, 0, 0⟩, nuclear := ⟨0, 0, 0, 0, 0, 0, 0⟩,
    hydro := ⟨0, 0, 0, 0, 0, 0, 0⟩, wind := ⟨0, 0, 0, 0, 0, 0, 0⟩,
    geo := ⟨0, 0, 0, 0, 0, 0, 0⟩, gas := ⟨0, 0, 0, 0, 0, 0, 0⟩,
    coal := ⟨0, 0, 0, 0, 0, 0, 0⟩, bio := ⟨0, 0, 0, 0, 0, 0, 0⟩,
    petro := ⟨0, 0, 0, 0, 0, 0, 0⟩, heat := ⟨0, 0, 0, 0, 0, 0, 0⟩ }

namespace GraphService

/-- JavaScript indexOf over the catalog lists, used by the sort
comparators. -/
def nameIndex (l : List EName) (n : EName) : Int :=
  match l.findIdx? (fun x => x == n) with
  | some i => (i : Int)
  | none => -1

/-- GraphService.sortGraphUp comparator (descending catalog order). -/
def sortGraphUp (a b : GraphStroke) : Int :=
  if nameIndex BOX_NAMES a.box < nameIndex BOX_NAMES b.box then 1
  else if nameIndex BOX_NAMES b.box < nameIndex BOX_NAMES a.box then -1
  else if nameIndex FUEL_NAMES a.fuel < nameIndex FUEL_NAMES b.fuel then 1
  else if nameIndex FUEL_NAMES b.fuel < nameIndex FUEL_NAMES a.fuel then -1
  else 0

/-- GraphService.sortGraphDown comparator (ascending catalog order). -/
def sortGraphDown (a b : GraphStroke) : Int :=
  if nameIndex BOX_NAMES a.box < nameIndex BOX_NAMES b.box then -1
  else if nameIndex BOX_NAMES b.box < nameIndex BOX_NAMES a.box then 1
  else if nameIndex FUEL_NAMES a.fuel < nameIndex FUEL_NAMES b.fuel then -1
  else if nameIndex FUEL_NAMES b.fuel < nameIndex FUEL_NAMES a.fuel then 1
  else 0

/-- [...BOX_NAMES].sort((a, b) => FLOW_PATHS_ORDER[fuelName][a] -
FLOW_PATHS_ORDER[fuelName][b]): the sector visiting order of one fuel.
Array.prototype.sort is stable; the embedding uses a stable insertion sort
with the relation cmp a b being nonpositive. -/
def boxesFor (fuelName : EName) : List EName :=
  BOX_NAMES.insertionSort
    (fun a b => FLOW_PATHS_ORDER fuelName a ≤ FLOW_PATHS_ORDER fuelName b)

/-- The per-year mutable cursor state of GraphService.calculateGraphY. -/
structure YearYState where
  leftY : ℚ
  elecY : ℚ
  heatY : ℚ
  offs : OffY
  graph : List GraphStroke
deriving DecidableEq, Repr

/-- The innermost (sectors) loop body of GraphService.calculateGraphY.
Self-loops (fuelName = boxName) are skipped, as is the heat box without heat
data.  The flow start point comes from the electricity cursor (j = 0), the
heat cursor (j = 1) or the left-column cursor (j > 1), each advanced by half
the stroke; the end point comes from the hub geometry (elec/heat boxes) or
from boxTops plus the sector offset.  For electricity flows (j = 0) a deep
copy is appended whose stroke and value are recomputed from the waste
quantities of the year. -/
def graphYBoxStep (cfg : ConfigM) (boxTops : BoxTopsM) (totals : YearTotals)
    (wasteObj : Breakdown) (j : Nat) (fuelName : EName) (fuelObj : Breakdown)
    (st : YearYState) (boxName : EName) : YearYState :=
  if fuelName = boxName then st
  else if cfg.hasHeatData = false ∧ boxName = .heat then st
  else
    let halfStroke := fuelObj.get boxName * SCALE / 2
    -- source-anchor branch on the fuel index (elecY / heatY / leftY cursor)
    let aY : ℚ :=
      if j = 0 then st.elecY + halfStroke
      else if j = 1 then st.heatY + halfStroke
      else st.leftY + halfStroke
    let aX : ℚ :=
      if j = 0 then ELEC_BOX_X + BOX_WIDTH
      else if j = 1 then HEAT_BOX_X + BOX_WIDTH
      else LEFT_X
    let elecY1 := if j = 0 then aY + halfStroke else st.elecY
    let heatY1 := if j = 1 then aY + halfStroke else st.heatY
    let leftY1 := if j = 0 ∨ j = 1 then st.leftY else aY
    let offs1 := st.offs.add boxName halfStroke
    let g : GraphStroke :=
      { fuel := fuelName, box := boxName,
        stroke := halfStroke * 2, value := fuelObj.get boxName,
        a := ⟨aX, aY⟩, b := ⟨0, aY⟩, c := ⟨0, 0⟩, cc := ⟨0, 0⟩, d := ⟨0, 0⟩ }
    -- target branch on the box name
    let g :=
      if boxName = .elec then
        let dY := ELEC_BOX_Y - totals.elec * SCALE + offs1.elec
        let cX := ELEC_BOX_X - 20 - (totals.elec * SCALE - offs1.elec) / cfg.sr3
          - ((FUELS.length : ℚ) - (j : ℚ)) * PATH_GAP
        { g with d := ⟨ELEC_BOX_X, dY⟩, c := ⟨cX, g.c.y⟩,
                 b := ⟨cX - |g.a.y - dY| / cfg.sr3, g.b.y⟩ }
      else if boxName = .heat then
        let dY := HEAT_BOX_Y - totals.heat * SCALE + offs1.heat
        let cX := HEAT_BOX_X - 20 - (totals.heat * SCALE - offs1.heat) / cfg.sr3
          - ((FUELS.length : ℚ) - (j : ℚ)) * PATH_GAP
        { g with d := ⟨HEAT_BOX_X, dY⟩, c := ⟨cX, g.c.y⟩,
                 b := ⟨cX - |g.a.y - dY| / cfg.sr3, g.b.y⟩ }
      else
        { g with d := ⟨cfg.width - BOX_WIDTH, boxTops.get boxName + offs1.get boxName⟩ }
    let g := { g with c := ⟨g.c.x, g.d.y⟩ }
    let offs2 := offs1.add boxName halfStroke
    let leftY2 := if 1 < j then leftY1 + halfStroke else leftY1
    let st1 : YearYState :=
      { leftY := leftY2, elecY := elecY1, heatY := heatY1, offs := offs2,
        graph := st.graph ++ [g] }
    -- waste-heat cloning for electricity flows
    if j = 0 then
      let lastBox := boxName
      let wh := wasteObj.get lastBox * SCALE / 2
      if fuelName = .elec ∧ lastBox = .res then
        { st1 with elecY := st1.elecY + wh * 2,
                   offs := st1.offs.add lastBox (wh * 2),
                   graph := st1.graph ++
                     [{ g with stroke := wh * 2, value := wasteObj.get lastBox }] }
      else if fuelName = .elec ∧ lastBox = .ag then
        { st1 with elecY := st1.elecY + wh * 2,
                   offs := st1.offs.add lastBox (wh * 2),
                   graph := st1.graph ++
                     [{ g with stroke := wh * 2, value := wasteObj.get lastBox }] }
      else if fuelName = .elec ∧ lastBox = .indus then
        { st1 with elecY := st1.elecY + wh * 2,
                   offs := st1.offs.add lastBox (wh * 2),
                   graph := st1.graph ++
                     [{ g with stroke := wh * 2, value := wasteObj.get lastBox }] }
      else if fuelName = .elec ∧ lastBox = .trans then
        { st1 with elecY := st1.elecY + wh * 2,
                   offs := st1.offs.add lastBox (wh * 2),
                   graph := st1.graph ++
                     [{ g with stroke := wh * 2, value := wasteObj.get lastBox }] }
      else if fuelName = .elec ∧ lastBox = .heat ∧ cfg.hasHeatData = true then
        { st1 with elecY := st1.elecY + wh * 2,
                   offs := st1.offs.add lastBox (wh * 2),
                   graph := st1.graph ++
                     [{ g with stroke := wh * 2, value := wasteObj.get lastBox }] }
      else
        { st1 with graph := st1.graph ++ [g] }
    else st1

/-- The middle (fuels) loop body of GraphService.calculateGraphY: skip heat
without heat data, write fuelObj.total = 0 into the record, run the sector
loop over the fuel-specific box order, and advance the left cursor by
LEFT_GAP for primary fuels. -/
def graphYFuelStep (cfg : ConfigM) (boxTops : BoxTopsM) (totals : YearTotals)
    (p : YearYState × EnergyRec) (jf : Nat × EName) : YearYState × EnergyRec :=
  let j := jf.1
  let fuelName := jf.2
  if cfg.hasHeatData = false ∧ fuelName = .heat then p
  else
    let rcd := p.2.updateFuel fuelName (fun o => { o with total := 0 })
    let fuelObj := rcd.fuelObj fuelName
    let wasteObj := rcd.waste
    let st1 := (boxesFor fuelName).foldl
      (graphYBoxStep cfg boxTops totals wasteObj j fuelName fuelObj) p.1
    let st2 := if 1 < j then { st1 with leftY := st1.leftY + LEFT_GAP } else st1
    (st2, rcd)

/-- One iteration of the years loop of GraphService.calculateGraphY.
iTotals is summary.totals[i] (read for the electricity cursor start); totals
and flows are looked up by year through filter(...)[0]. -/
def graphYearY (cfg : ConfigM) (summary : SummaryM)
    (iTotals : YearTotals) (r : EnergyRec) : GraphData × EnergyRec :=
  let totals := (summary.totals.filter (fun d => d.year = r.year)).headD junkTotals
  let flows := (summary.flows.filter (fun d => d.year = r.year)).headD junkFlows
  let st0 : YearYState :=
    { leftY := TOP_Y
      elecY := ELEC_BOX_Y - iTotals.elec * SCALE
      heatY := if cfg.hasHeatData then HEAT_BOX_Y - iTotals.heat * SCALE else 0
      offs := ⟨0, 0, 0, 0, 0, 0⟩
      graph := [] }
  let res := FUELS.enum.foldl (graphYFuelStep cfg summary.boxTops totals) (st0, r)
  ({ year := r.year, graph := res.1.graph, totals := totals, flows := flows,
     offsets := { x := ⟨0, 0, 0, 0, 0, 0, 0, 0, 0⟩, y := res.1.offs } },
   res.2)

/-- GraphService.calculateGraphY over all years.  The second component is
the record sequence after the in-place fuelObj.total = 0 writes. -/
def calculateGraphY (cfg : ConfigM) (summary : SummaryM)
    (data : List EnergyRec) : List GraphData × List EnergyRec :=
  let results := data.enum.map (fun ir =>
    graphYearY cfg summary (summary.totals.getD ir.1 junkTotals) ir.2)
  (results.map Prod.fst, results.map Prod.snd)

/-- The filter of the ups pass: flows rising toward their target, excluding
the elec and heat hub boxes. -/
def upFilter (g : GraphStroke) : Bool :=
  decide (g.d.y < g.a.y) && !(g.box == .elec) && !(g.box == .heat)

/-- The filter of the downs pass. -/
def downFilter (g : GraphStroke) : Bool :=
  decide (g.a.y < g.d.y) && !(g.box == .elec) && !(g.box == .heat)

/-- The filter used twice by spaceUpsAndDowns and once (on the fuel field)
by the waste pass. -/
def notElecHeatBox (g : GraphStroke) : Bool :=
  !(g.box == .elec) && !(g.box == .heat)

def elecFuel (g : GraphStroke) : Bool := g.fuel == .elec

/-- The positions (in original order) of the array elements satisfying p;
the JavaScript filter produces the array of references at these indices. -/
def filteredIdx (p : GraphStroke → Bool) (arr : List GraphStroke) : List Nat :=
  (List.range arr.length).filter (fun k => p (arr.getD k junkStroke))

/-- Stable sort of a list of indices by a numeric comparator on the array
elements (Array.prototype.sort semantics for a consistent comparator). -/
def sortIdxByCmp (arr : List GraphStroke) (cmp : GraphStroke → GraphStroke → Int)
    (idxs : List Nat) : List Nat :=
  idxs.insertionSort
    (fun i1 i2 => cmp (arr.getD i1 junkStroke) (arr.getD i2 junkStroke) ≤ 0)

/-- The forEach body of calculateGraphXUps, updating the element at index
jk.2 (jk.1 is the forEach counter j).  A new target box re-anchors the
horizontal control point at the right edge and resets the box offset to half
the stroke; within a box the control point fans out by the used vertical
space over SR3 plus j times ELEC_GAP times HSR3. -/
def xUpsStep (cfg : ConfigM) (totals : YearTotals)
    (st : List GraphStroke × OffY × Option EName) (jk : Nat × Nat) :
    List GraphStroke × OffY × Option EName :=
  let arr := st.1
  let offs := st.2.1
  let cur := st.2.2
  let g := arr.getD jk.2 junkStroke
  let offs1 := if cur ≠ some g.box then offs.set g.box (g.stroke / 2) else offs
  let cX :=
    if cur ≠ some g.box then cfg.width - BOX_WIDTH - 20 - g.stroke / 2
    else cfg.width - BOX_WIDTH - 20
      - (totals.get g.box * SCALE - offs1.get g.box) / cfg.sr3
      - (jk.1 : ℚ) * ELEC_GAP * cfg.hsr3
  let g := { g with c := ⟨cX, g.c.y⟩ }
  let g := { g with b := ⟨g.c.x - |g.a.y - g.c.y| / cfg.sr3, g.b.y⟩ }
  let g := { g with cc := ⟨g.c.x - |totals.fuel_height - g.c.y| / cfg.sr3, g.cc.y⟩ }
  (arr.set jk.2 g, offs1, some g.box)

/-- The forEach body of calculateGraphXDowns. -/
def xDownsStep (cfg : ConfigM) (totals : YearTotals)
    (st : List GraphStroke × OffY × Option EName) (jk : Nat × Nat) :
    List GraphStroke × OffY × Option EName :=
  let arr := st.1
  let offs := st.2.1
  let cur := st.2.2
  let g := arr.getD jk.2 junkStroke
  let offs1 := if cur ≠ some g.box then offs.set g.box (g.stroke / 2) else offs
  let cX :=
    if cur ≠ some g.box then cfg.width - BOX_WIDTH - 20 - g.stroke / 2
    else cfg.width - BOX_WIDTH - 20 - offs1.get g.box / cfg.sr3
      - (jk.1 : ℚ) * ELEC_GAP * cfg.hsr3
  let g := { g with c := ⟨cX, g.c.y⟩ }
  let g := { g with b := ⟨g.c.x - |g.a.y - g.c.y| / cfg.sr3, g.b.y⟩ }
  let g := { g with cc := ⟨g.c.x - |ELEC_BOX_Y - g.c.y| / cfg.sr3, g.cc.y⟩ }
  (arr.set jk.2 g, offs1, some g.box)

/-- Per-year body of GraphService.calculateGraphXUps (the source loops this
over all years): filter, stable-sort by sortGraphUp, then update each
element in place. -/
def calculateGraphXUps (cfg : ConfigM) (gd : GraphData) : GraphData :=
  let idxs := filteredIdx upFilter gd.graph
  let sorted := sortIdxByCmp gd.graph sortGraphUp idxs
  let res := sorted.enum.foldl (xUpsStep cfg gd.totals) (gd.graph, gd.offsets.y, none)
  { gd with graph := res.1, offsets := { gd.offsets with y := res.2.1 } }

/-- Per-year body of GraphService.calculateGraphXDowns. -/
def calculateGraphXDowns (cfg : ConfigM) (gd : GraphData) : GraphData :=
  let idxs := filteredIdx downFilter gd.graph
  let sorted := sortIdxByCmp gd.graph sortGraphDown idxs
  let res := sorted.enum.foldl (xDownsStep cfg gd.totals) (gd.graph, gd.offsets.y, none)
  { gd with graph := res.1, offsets := { gd.offsets with y := res.2.1 } }

/-- The first forEach body of spaceUpsAndDowns: enforce the minimum
horizontal gap to the previous (already shifted) flow, shifting cc, c and b
leftward; prev starts null and is the previously visited element. -/
def spaceStep (cfg : ConfigM)
    (st : List GraphStroke × Option GraphStroke) (jk : Nat × Nat) :
    List GraphStroke × Option GraphStroke :=
  let arr := st.1
  let g := arr.getD jk.2 junkStroke
  if jk.1 = 0 then (arr, some g)
  else
    match st.2 with
    | none => (arr, some g)
    | some prev =>
      let pathGap := if g.stroke = 0 then 0 else PATH_GAP * cfg.hsr3
      let diff := pathGap - ((prev.cc.x - prev.stroke / 2) - (g.cc.x + g.stroke / 2))
      let g1 := { g with cc := ⟨g.cc.x - diff, g.cc.y⟩, c := ⟨g.c.x - diff, g.c.y⟩,
                         b := ⟨g.b.x - diff, g.b.y⟩ }
      (arr.set jk.2 g1, some g1)

/-- Per-year body of GraphService.spaceUpsAndDowns: sort the whole graph
array by cc.x descending (stable), run the gap-enforcing walk over the
non-hub flows, then re-anchor them so the rightmost cc.x sits at
WIDTH - BOX_WIDTH - 50. -/
def spaceUpsAndDowns (cfg : ConfigM) (gd : GraphData) : GraphData :=
  let arr := gd.graph.insertionSort (fun a b => b.cc.x ≤ a.cc.x)
  let idxs := filteredIdx notElecHeatBox arr
  let arr := (idxs.enum.foldl (spaceStep cfg) (arr, none)).1
  let maxCC := listMaxQ (arr.map (fun o => o.cc.x))
  let idxs2 := filteredIdx notElecHeatBox arr
  let arr := idxs2.foldl (fun a k =>
    let g := a.getD k junkStroke
    let diff := maxCC - (cfg.width - BOX_WIDTH - 50)
    a.set k { g with c := ⟨g.c.x - diff, g.c.y⟩, b := ⟨g.b.x - diff, g.b.y⟩ }) arr
  { gd with graph := arr }

/-- The forEach body of processWasteHeatFlows: every second
electricity-origin flow is reassigned fuel = waste and repositioned beside
its paired electricity flow with a half-combined-stroke offset. -/
def wasteStep (st : List GraphStroke × Option GraphStroke) (jk : Nat × Nat) :
    List GraphStroke × Option GraphStroke :=
  let arr := st.1
  let g := arr.getD jk.2 junkStroke
  if jk.1 % 2 ≠ 0 then
    let g1 := { g with fuel := .waste }
    let g2 :=
      match st.2 with
      | some prev =>
        let totalStroke := |prev.stroke + g1.stroke|
        let aY := prev.a.y + totalStroke / 2
        let cY := prev.c.y + totalStroke / 2
        { g1 with a := ⟨g1.a.x, aY⟩,
                  b := ⟨prev.b.x - totalStroke / (7 / 2), aY⟩,
                  c := ⟨prev.c.x - totalStroke / (7 / 2), cY⟩,
                  d := ⟨g1.d.x, cY⟩ }
      | none => g1
    (arr.set jk.2 g2, st.2)
  else
    (arr, some g)

/-- Per-year body of GraphService.processWasteHeatFlows: filter the
electricity-origin flows, stable-sort them by sortGraphDown, and run the
alternating reassignment walk. -/
def processWasteHeatFlows (gd : GraphData) : GraphData :=
  let idxs := filteredIdx elecFuel gd.graph
  let sorted := sortIdxByCmp gd.graph sortGraphDown idxs
  let arr := (sorted.enum.foldl wasteStep (gd.graph, none)).1
  { gd with graph := arr }

/-- GraphService.buildGraphs: the four sequential passes, each looping over
all years (the years are mutually independent, so the per-year bodies are
mapped).  The record list output carries the fuelObj.total = 0 writes. -/
def buildGraphs (cfg : ConfigM) (input : List EnergyRec) :
    List GraphData × List EnergyRec :=
  let data := sortByYear input
  let summary := SummaryService.buildSummary cfg.hasHeatData data
  let p := calculateGraphY cfg summary data
  ((((p.1.map (calculateGraphXUps cfg)).map (calculateGraphXDowns cfg)).map
      (spaceUpsAndDowns cfg)).map processWasteHeatFlows,
   p.2)

end GraphService


/-! ### Totals-only projection of the buildTotals loop

The triple-nested loop of SummaryService.buildTotals threads the totals, the
flow counters and the labels together.  The totals component never reads the
other two, so it equals the following totals-only fold; the projection
lemmas proving this are in the theorems section and let the claims about
YearTotals be settled without dragging the flow/label state along. -/

/-- The YearTotals component of totalsSectorStep. -/
def totalsOnlySector (hasHeat : Bool) (r : EnergyRec) (j : Nat) (fuelName : EName)
    (t0 : YearTotals) (boxName : EName) : YearTotals :=
  if hasHeat = false ∧ boxName = .heat then t0
  else
    let fuelObj := r.fuelObj fuelName
    let t := t0.add boxName (fuelObj.get boxName)
    let t := t.add fuelName (fuelObj.get boxName)
    let t :=
      if j = 2 ∧ boxName ≠ .elec then
        (t.add boxName (r.elec.get boxName)).add boxName (r.waste.get boxName)
      else t
    let t :=
      if j = 2 ∧ boxName ≠ .heat ∧ hasHeat = true then
        t.add boxName (r.heat.get boxName)
      else t
    t

/-- The YearTotals component of totalsFuelStep. -/
def totalsOnlyFuel (hasHeat : Bool) (r : EnergyRec)
    (t0 : YearTotals) (jf : Nat × EName) : YearTotals :=
  if hasHeat = false ∧ jf.2 = .heat then t0
  else
    let t := BOX_NAMES.foldl (totalsOnlySector hasHeat r jf.1 jf.2) t0
    { t with fuel_height := t.fuel_height + t.get jf.2 * SCALE + LEFT_GAP }

/-- The YearTotals component of buildYearEntry. -/
def buildYearTotal (hasHeat : Bool) (r : EnergyRec) : YearTotals :=
  let t := (FUELS.enum.drop 2).foldl (totalsOnlyFuel hasHeat r)
    (SummaryService.initTotals r)
  let t := { t with waste := r.waste.res + r.waste.ag + r.waste.indus + r.waste.trans }
  let t := if hasHeat then { t with waste := t.waste + r.waste.heat } else t
  { t with milestone := r.milestone }


/-- The amount the sector-loop body adds to the field m of the running
YearTotals (used to characterize the fold field-wise). -/
def sectorDelta (hasHeat : Bool) (r : EnergyRec) (j : Nat) (f : EName)
    (b m : EName) : ℚ :=
  if hasHeat = false ∧ b = .heat then 0
  else
    (if b = m then (r.fuelObj f).get b else 0) +
    (if f = m then (r.fuelObj f).get b else 0) +
    (if j = 2 ∧ b ≠ .elec ∧ b = m then r.elec.get b + r.waste.get b else 0) +
    (if j = 2 ∧ b ≠ .heat ∧ hasHeat = true ∧ b = m then r.heat.get b else 0)

/-- The amount one fuels-loop iteration adds to the field m of the running
YearTotals. -/
def fuelDelta (hasHeat : Bool) (r : EnergyRec) (jf : Nat × EName) (m : EName) : ℚ :=
  if hasHeat = false ∧ jf.2 = .heat then 0
  else (BOX_NAMES.map (fun b => sectorDelta hasHeat r jf.1 jf.2 b m)).sum

/-! ## Theorems -/

/-! ### Generic fold helpers -/

/-- Invariant preservation through List.foldl. -/
theorem foldl_preserves {α σ : Type _} (Inv : σ → Prop) (f : σ → α → σ)
    (hf : ∀ s a, Inv s → Inv (f s a)) :
    ∀ (l : List α) (s : σ), Inv s → Inv (l.foldl f s) := by
  intro l
  induction l with
  | nil => intro s h; exact h
  | cons a t ih => intro s h; exact ih _ (hf _ _ h)

/-- When the second component of a pair fold depends only on the second
component, it equals the corresponding plain fold. -/
theorem foldl_snd_eq {α σ τ : Type _} (f : σ × τ → α → σ × τ) (g : τ → α → τ)
    (hf : ∀ p a, (f p a).2 = g p.2 a) :
    ∀ (l : List α) (p : σ × τ), (l.foldl f p).2 = l.foldl g p.2 := by
  intro l
  induction l with
  | nil => intro p; rfl
  | cons a t ih =>
    intro p
    rw [List.foldl_cons, List.foldl_cons, ih, hf]

/-! ### Sorted-years helpers -/

/-- The DataService constructor sorts the records ascending by year. -/
theorem sortByYear_pairwise (input : List EnergyRec) :
    (sortByYear input).Pairwise (fun a b => a.year ≤ b.year) := by
  haveI : IsTotal EnergyRec (fun a b : EnergyRec => a.year ≤ b.year) :=
    ⟨fun a b => le_total a.year b.year⟩
  haveI : IsTrans EnergyRec (fun a b : EnergyRec => a.year ≤ b.year) :=
    ⟨fun _ _ _ hab hbc => le_trans hab hbc⟩
  exact List.sorted_insertionSort _ _

/-- The years array of the data service is ascending. -/
theorem years_pairwise (input : List EnergyRec) :
    (DataService.mk input).years.Pairwise (fun a b : Int => a ≤ b) := by
  have h := sortByYear_pairwise input
  simpa [DataService.mk] using
    h.map (fun r : EnergyRec => r.year) (fun _ _ hab => hab)

/-- In an ascending list the default head bounds every member from below. -/
theorem headD_le_of_pairwise {l : List Int} (h : l.Pairwise (fun a b : Int => a ≤ b))
    {z : Int} (hz : z ∈ l) : l.headD 0 ≤ z := by
  cases l with
  | nil => cases hz
  | cons a t =>
    rcases List.mem_cons.mp hz with rfl | hzt
    · exact le_refl _
    · exact (List.pairwise_cons.mp h).1 z hzt

/-- In an ascending list the default last element bounds every member from
above. -/
theorem le_getD_last_of_pairwise {l : List Int} (h : l.Pairwise (fun a b : Int => a ≤ b))
    {z : Int} (hz : z ∈ l) : z ≤ l.getD (l.length - 1) 0 := by
  rcases List.mem_iff_get.mp hz with ⟨i, rfl⟩
  have hlen : 0 < l.length := lt_of_le_of_lt (Nat.zero_le _) i.isLt
  have hlast : l.length - 1 < l.length := by omega
  have hval : l.getD (l.length - 1) 0 = l.get ⟨l.length - 1, hlast⟩ := by
    rw [List.getD_eq_get?, List.get?_eq_get hlast]
    rfl
  rw [hval]
  rcases Nat.lt_or_ge i.1 (l.length - 1) with hi | hi
  · exact (List.pairwise_iff_get.mp h) i ⟨l.length - 1, hlast⟩ hi
  · have : i.1 = l.length - 1 := le_antisymm (by omega) hi
    simp only [show (⟨l.length - 1, hlast⟩ : Fin l.length) = i from (Fin.ext this.symm)]
    exact le_refl _

/-- Every member of the years array lies between firstYear and lastYear. -/
theorem years_mem_range (input : List EnergyRec) {z : Int}
    (hz : z ∈ (DataService.mk input).years) :
    (DataService.mk input).firstYear ≤ z ∧ z ≤ (DataService.mk input).lastYear := by
  have hp := years_pairwise input
  constructor
  · exact headD_le_of_pairwise hp hz
  · exact le_getD_last_of_pairwise hp hz

/-! ### indexOf helpers -/

/-- Array.prototype.indexOf returns -1 exactly on absent values. -/
theorem jsIndexOf_of_not_mem {l : List Int} {y : Int} (h : y ∉ l) :
    jsIndexOf l y = -1 := by
  unfold jsIndexOf
  have hnone : l.findIdx? (fun x => x == y) = none := by
    apply List.findIdx?_eq_none_iff.mpr
    intro x hx
    simp only [beq_eq_false_iff_ne]
    exact fun hxy => h (hxy ▸ hx)
  rw [hnone]

/-- In a duplicate-free list, findIdx? of the i-th element yields i (stated
with the running start index of the core implementation). -/
theorem findIdx?_get?_of_nodup :
    ∀ {l : List Int}, l.Nodup → ∀ (i : Nat) (a : Int), l.get? i = some a →
      ∀ s : Nat, l.findIdx? (fun x => x == a) s = some (s + i) := by
  intro l
  induction l with
  | nil => intro _ i a h; simp at h
  | cons b t ih =>
    intro hnd i a h s
    cases i with
    | zero =>
      have hb : b = a := by simpa using h
      subst hb
      rw [List.findIdx?_cons]
      simp
    | succ j =>
      have hat : a ∈ t := by
        have : t.get? j = some a := by simpa using h
        exact List.get?_mem this
      have hb : b ≠ a := fun hba => (List.nodup_cons.mp hnd).1 (hba ▸ hat)
      rw [List.findIdx?_cons]
      have hbeq : (b == a) = false := beq_eq_false_iff_ne.mpr hb
      rw [hbeq]
      simp only [Bool.false_eq_true, if_false]
      have := ih (List.nodup_cons.mp hnd).2 j a (by simpa using h) (s + 1)
      rw [this]
      congr 1
      omega

/-- indexOf of the i-th element of a duplicate-free list is i. -/
theorem jsIndexOf_get?_of_nodup {l : List Int} (hnd : l.Nodup) {i : Nat} {a : Int}
    (h : l.get? i = some a) : jsIndexOf l a = (i : Int) := by
  unfold jsIndexOf
  rw [findIdx?_get?_of_nodup hnd i a h 0]
  simp

/-! ### Concrete sample data for witnesses and counterexamples -/

/-- An all-zero record with the given year. -/
def mkRec (n : Int) : EnergyRec :=
  { junkRec with year := n }

/-- Two-year sample dataset. -/
def sampleTwo : List EnergyRec := [mkRec 10, mkRec 20]

/-- Sample dataset with a duplicated year (validation does not reject
duplicates). -/
def sampleDup : List EnergyRec := [mkRec 5, mkRec 5]

/-- A neutral animation state. -/
def sampleAnim : AnimState :=
  { currentYearIndex := 0, isAnimating := false, animationTimer := false, speed := 200 }

/-! ### C5: boundary rejection of setYear -/

/-- C5: for every year outside [firstYear, lastYear] or absent from the
dataset, AnimationService.setYear leaves the state untouched, so
getCurrentYear returns the same value before and after the call. -/
theorem setYear_boundary_rejection (input : List EnergyRec) (st : AnimState) (y : Int)
    (h : y < (DataService.mk input).firstYear ∨
         (DataService.mk input).lastYear < y ∨
         y ∉ (DataService.mk input).years) :
    AnimationService.getCurrentYear (DataService.mk input)
        (AnimationService.setYear (DataService.mk input) st y) =
      AnimationService.getCurrentYear (DataService.mk input) st := by
  have hnm : y ∉ (DataService.mk input).years := by
    rcases h with h1 | h2 | h3
    · intro hmem
      exact absurd (years_mem_range input hmem).1 (not_le.mpr h1)
    · intro hmem
      exact absurd (years_mem_range input hmem).2 (not_le.mpr h2)
    · exact h3
  have hidx : DataService.getYearIndex (DataService.mk input) y = -1 :=
    jsIndexOf_of_not_mem hnm
  unfold AnimationService.setYear
  rw [hidx]
  simp

/-- C5 witness: the two-year sample dataset rejects the year 5 (below the
range), leaving getCurrentYear unchanged. -/
theorem setYear_boundary_rejection_witness :
    AnimationService.getCurrentYear (DataService.mk sampleTwo)
        (AnimationService.setYear (DataService.mk sampleTwo) sampleAnim 5) =
      AnimationService.getCurrentYear (DataService.mk sampleTwo) sampleAnim :=
  setYear_boundary_rejection sampleTwo sampleAnim 5 (Or.inl (by decide))

/-! ### C6: index round trip -/

/-- C6 counterexample: a validated dataset with a duplicated year breaks the
round trip, because getYearIndex returns the first index of the year:
at index 1 the record year is 5, but getYearIndex gives 0. -/
theorem roundtrip_cex :
    validatedData sampleDup ∧
    DataService.getYearDataByIndex (DataService.mk sampleDup) 1 = some (mkRec 5) ∧
    DataService.getYearIndex (DataService.mk sampleDup)
        ((DataService.getYearDataByIndex (DataService.mk sampleDup) 1).getD junkRec).year
      ≠ 1 := by
  refine ⟨⟨by decide, by decide⟩, by decide, by decide⟩

/-- C6 amended: on every validated dataset whose years are pairwise
distinct, looking a record up by index and mapping its year back through
getYearIndex round-trips to the same index. -/
theorem roundtrip_nodup (input : List EnergyRec)
    (hnd : (DataService.mk input).years.Nodup) (i : Int) (r : EnergyRec)
    (hr : DataService.getYearDataByIndex (DataService.mk input) i = some r) :
    DataService.getYearIndex (DataService.mk input) r.year = i := by
  unfold DataService.getYearDataByIndex at hr
  by_cases hb : i < 0 ∨ ((DataService.mk input).data.length : Int) ≤ i
  · rw [if_pos hb] at hr
    cases hr
  · rw [if_neg hb] at hr
    push_neg at hb
    have hyear : (DataService.mk input).years.get? i.toNat = some r.year := by
      have : (DataService.mk input).years = (DataService.mk input).data.map
          (fun r : EnergyRec => r.year) := by
        simp [DataService.mk]
      rw [this, List.get?_map, hr]
      rfl
    have := jsIndexOf_get?_of_nodup hnd hyear
    unfold DataService.getYearIndex
    rw [this]
    omega

/-- C6 witness: on the duplicate-free two-year sample the round trip holds
at index 1. -/
theorem roundtrip_nodup_witness :
    DataService.getYearIndex (DataService.mk sampleTwo) (mkRec 20).year = 1 :=
  roundtrip_nodup sampleTwo (by decide) 1 (mkRec 20) (by decide)

/-! ### C8: the tick at the last year -/

/-- C8 counterexample: with looping disabled, the tick at the last year of
the two-year sample transitions to Stopped but resets the year index to 0,
so the displayed year changes from 20 to 10 instead of being preserved. -/
theorem nextFrame_end_cex :
    AnimationService.getCurrentYear (DataService.mk sampleTwo)
        { currentYearIndex := 1, isAnimating := true, animationTimer := true, speed := 200 } = 20 ∧
    (AnimationService.nextFrame false (DataService.mk sampleTwo)
        { currentYearIndex := 1, isAnimating := true, animationTimer := true, speed := 200 }).isAnimating = false ∧
    AnimationService.getCurrentYear (DataService.mk sampleTwo)
        (AnimationService.nextFrame false (DataService.mk sampleTwo)
          { currentYearIndex := 1, isAnimating := true, animationTimer := true, speed := 200 }) = 10 := by
  refine ⟨by decide, by decide, by decide⟩

/-- C8 amended: a tick at the last year first resets the index to 0; without
looping the engine then transitions to Stopped (flag cleared, timer cleared)
with the index left at 0 (the first year, not the pre-tick year); with
looping it then advances through nextYear, landing on index 1 (the second
year) on a duplicate-free dataset of at least two years. -/
theorem nextFrame_at_end (loopAnimation : Bool) (input : List EnergyRec) (st : AnimState)
    (hnd : (DataService.mk input).years.Nodup)
    (hlen : 2 ≤ (DataService.mk input).yearsLength)
    (hend : (DataService.mk input).yearsLength ≤ st.currentYearIndex + 1)
    (hplay : st.isAnimating = true) (htimer : st.animationTimer = true) :
    AnimationService.nextFrame loopAnimation (DataService.mk input) st =
      if loopAnimation then
        { st with currentYearIndex := 1 }
      else
        { st with currentYearIndex := 0, isAnimating := false, animationTimer := false } := by
  set ds := DataService.mk input with hds
  unfold AnimationService.nextFrame
  rw [if_pos hend]
  cases loopAnimation with
  | false =>
    rw [if_pos rfl]
    simp [AnimationService.pause, hplay, htimer]
  | true =>
    rw [if_neg (by simp)]
    unfold AnimationService.nextYear
    rw [if_pos (show (0 : Nat) < ds.yearsLength - 1 by omega)]
    have hy1 : ds.years.get? 1 = some (ds.years.getD 1 0) := by
      have h1 : 1 < ds.years.length := by
        have : ds.years.length = ds.yearsLength := by simp [hds, DataService.mk]
        omega
      rw [List.getD_eq_get?, List.get?_eq_get h1]
      rfl
    have hidx : jsIndexOf ds.years (ds.years.getD 1 0) = (1 : Int) :=
      jsIndexOf_get?_of_nodup hnd hy1
    simp only [AnimationService.setYear, DataService.getYearIndex, Nat.zero_add]
    rw [hidx]
    simp

/-- C8 witness: the no-loop branch evaluated on the two-year sample at its
last index. -/
theorem nextFrame_at_end_witness :
    AnimationService.nextFrame false (DataService.mk sampleTwo)
        { currentYearIndex := 1, isAnimating := true, animationTimer := true, speed := 200 } =
      { currentYearIndex := 0, isAnimating := false, animationTimer := false, speed := 200 } :=
  nextFrame_at_end false sampleTwo
    { currentYearIndex := 1, isAnimating := true, animationTimer := true, speed := 200 }
    (by decide) (by decide) (by decide) rfl rfl

/-! ### C9: destroy leaves the playback timer running -/

/-- An initialized, not yet destroyed facade state. -/
def sampleSnk : SnkState :=
  { destroyed := false, initialized := true, subsCount := 2, busHandlers := 2,
    hasSvg := true, hasTooltip := true, hasServices := true, anim := sampleAnim }

/-- C9: destroy called while the animation is playing marks the facade
destroyed and releases subscriptions, yet the interval timer registration of
the animation service survives (destroy never pauses or cleans the service),
and a second destroy changes nothing: the claim that the timer is never left
running after destroy fails on the code. -/
theorem destroy_leaves_timer_running :
    (Sankey.destroy (Sankey.play sampleSnk)).destroyed = true ∧
    (Sankey.destroy (Sankey.play sampleSnk)).subsCount = 0 ∧
    (Sankey.play sampleSnk).anim.animationTimer = true ∧
    (Sankey.destroy (Sankey.play sampleSnk)).anim.animationTimer = true ∧
    Sankey.destroy (Sankey.destroy (Sankey.play sampleSnk)) =
      Sankey.destroy (Sankey.play sampleSnk) := by
  refine ⟨by decide, by decide, by decide, by decide, by decide⟩

/-! ### C10: setSpeed validation -/

/-- C10: setSpeed throws on non-positive speeds before any state is written
(so the stored speed and the Playing/Stopped state are unchanged), and
stores every positive speed. -/
theorem setSpeed_spec (st : AnimState) (speed : ℚ) :
    (speed ≤ 0 →
      AnimationService.setSpeed st speed =
        Except.error "Animation speed must be positive") ∧
    (0 < speed → ∀ st2, AnimationService.setSpeed st speed = Except.ok st2 →
      st2.speed = speed) := by
  constructor
  · intro h
    unfold AnimationService.setSpeed
    rw [if_pos h]
  · intro h st2 he
    unfold AnimationService.setSpeed at he
    rw [if_neg (not_le.mpr h)] at he
    have := Except.ok.inj he
    subst this
    by_cases ha : st.isAnimating
    · simp only [ha, if_pos]
      unfold AnimationService.pause
      by_cases ht : st.animationTimer <;> simp [ht]
    · simp [ha]

/-- C10 witness: the rejection branch evaluated at speed -1. -/
theorem setSpeed_spec_witness :
    AnimationService.setSpeed sampleAnim (-1) =
      Except.error "Animation speed must be positive" :=
  (setSpeed_spec sampleAnim (-1)).1 (by norm_num)


/-! ### Totals Aggregator helpers -/

/-- When the first component of a pair fold depends only on the first
component, it equals the corresponding plain fold. -/
theorem foldl_fst_eq {α σ τ : Type _} (f : σ × τ → α → σ × τ) (g : σ → α → σ)
    (hf : ∀ p a, (f p a).1 = g p.1 a) :
    ∀ (l : List α) (p : σ × τ), (l.foldl f p).1 = l.foldl g p.1 := by
  intro l
  induction l with
  | nil => intro p; rfl
  | cons a t ih =>
    intro p
    rw [List.foldl_cons, List.foldl_cons, ih, hf]

/-- The totals component of the sector-loop body is indeed the totals-only
step. -/
theorem totalsSectorStep_fst (hasHeat : Bool) (r : EnergyRec) (j : Nat)
    (fuelName : EName) (acc : YearTotals × YearFlows) (b : EName) :
    (SummaryService.totalsSectorStep hasHeat r j fuelName acc b).1 =
      totalsOnlySector hasHeat r j fuelName acc.1 b := by
  unfold SummaryService.totalsSectorStep totalsOnlySector
  split <;> rfl

/-- The totals component of the fuels-loop body is indeed the totals-only
step. -/
theorem totalsFuelStep_fst (hasHeat : Bool) (r : EnergyRec)
    (acc : YearTotals × YearFlows × YearLabels) (jf : Nat × EName) :
    (SummaryService.totalsFuelStep hasHeat r acc jf).1 =
      totalsOnlyFuel hasHeat r acc.1 jf := by
  by_cases hskip : hasHeat = false ∧ jf.2 = EName.heat
  · simp only [SummaryService.totalsFuelStep, totalsOnlyFuel, if_pos hskip]
  · have h := foldl_fst_eq (SummaryService.totalsSectorStep hasHeat r jf.1 jf.2)
      (totalsOnlySector hasHeat r jf.1 jf.2)
      (fun p a => totalsSectorStep_fst hasHeat r jf.1 jf.2 p a)
      BOX_NAMES (acc.1, acc.2.1)
    simp only [SummaryService.totalsFuelStep, totalsOnlyFuel, if_neg hskip]
    rw [h]

/-- The YearTotals produced per year by buildTotals equals the totals-only
fold. -/
theorem buildYearEntry_fst (hasHeat : Bool) (r : EnergyRec) :
    (SummaryService.buildYearEntry hasHeat r).1 = buildYearTotal hasHeat r := by
  unfold SummaryService.buildYearEntry buildYearTotal
  have h := foldl_fst_eq (SummaryService.totalsFuelStep hasHeat r)
    (totalsOnlyFuel hasHeat r)
    (fun p a => totalsFuelStep_fst hasHeat r p a)
    (FUELS.enum.drop 2)
    (SummaryService.initTotals r, SummaryService.initFlows r,
      SummaryService.initLabels hasHeat r)
  dsimp only
  rw [h]

/-- The fuels loop of buildTotals, as an explicit indexed list starting at
j = 2 (electricity and heat are skipped). -/
theorem fuels_enum_drop_two :
    FUELS.enum.drop 2 =
      [(2, EName.solar), (3, EName.nuclear), (4, EName.hydro), (5, EName.wind),
       (6, EName.geo), (7, EName.gas), (8, EName.coal), (9, EName.bio),
       (10, EName.petro)] := by
  decide

/-- A start value bounds List.foldl max from below. -/
theorem le_foldl_max : ∀ (xs : List ℚ) (b : ℚ), b ≤ xs.foldl max b := by
  intro xs
  induction xs with
  | nil => intro b; exact le_refl b
  | cons y t ih =>
    intro b
    exact le_trans (le_max_left b y) (ih (max b y))

/-- Math.max of a nonempty list of nonnegative numbers is nonnegative. -/
theorem listMaxQ_nonneg {l : List ℚ} (hne : l ≠ []) (h : ∀ x ∈ l, 0 ≤ x) :
    0 ≤ listMaxQ l := by
  cases l with
  | nil => cases hne rfl
  | cons x xs =>
    exact le_trans (h x (List.mem_cons_self x xs)) (le_foldl_max xs x)


/-! ### Field-wise characterization of the totals fold -/

/-- Reading a field after a dynamic compound assignment. -/
theorem YearTotals.get_add (t : YearTotals) (n m : EName) (q : ℚ) :
    (t.add n q).get m = if n = m then t.get m + q else t.get m := by
  cases n <;> cases m <;> rfl

/-- Updating fuel_height does not change any keyed field. -/
theorem YearTotals.get_fuel_height_update (t : YearTotals) (v : ℚ) (m : EName) :
    YearTotals.get { t with fuel_height := v } m = t.get m := by
  cases m <;> rfl

/-- Updating waste changes exactly the waste key. -/
theorem YearTotals.get_waste_update (t : YearTotals) (w : ℚ) (m : EName) :
    YearTotals.get { t with waste := w } m = if m = .waste then w else t.get m := by
  cases m <;> rfl

/-- Updating the milestone does not change any keyed field. -/
theorem YearTotals.get_milestone_update (t : YearTotals) (ms : Option String) (m : EName) :
    YearTotals.get { t with milestone := ms } m = t.get m := by
  cases m <;> rfl

/-- All keyed fields of the fresh YearTotals are zero. -/
theorem initTotals_get (r : EnergyRec) (m : EName) :
    (SummaryService.initTotals r).get m = 0 := by
  cases m <;> rfl

/-- One sector-loop step adds exactly sectorDelta to every keyed field. -/
theorem totalsOnlySector_get (hasHeat : Bool) (r : EnergyRec) (j : Nat) (f : EName)
    (t : YearTotals) (b m : EName) :
    (totalsOnlySector hasHeat r j f t b).get m =
      t.get m + sectorDelta hasHeat r j f b m := by
  unfold totalsOnlySector sectorDelta
  by_cases hg : hasHeat = false ∧ b = EName.heat
  · rw [if_pos hg, if_pos hg]
    ring
  · rw [if_neg hg, if_neg hg]
    simp only [apply_ite (fun t : YearTotals => YearTotals.get t m), YearTotals.get_add]
    split_ifs <;> first | ring1 | (exfalso; tauto)

/-- The sector loop adds the summed sectorDelta values. -/
theorem sector_fold_get (hasHeat : Bool) (r : EnergyRec) (j : Nat) (f : EName) :
    ∀ (bs : List EName) (t : YearTotals) (m : EName),
      (bs.foldl (totalsOnlySector hasHeat r j f) t).get m =
        t.get m + (bs.map (fun b => sectorDelta hasHeat r j f b m)).sum := by
  intro bs
  induction bs with
  | nil => intro t m; simp
  | cons b rest ih =>
    intro t m
    rw [List.foldl_cons, ih, totalsOnlySector_get, List.map_cons, List.sum_cons]
    ring

/-- One fuels-loop step adds exactly fuelDelta to every keyed field. -/
theorem totalsOnlyFuel_get (hasHeat : Bool) (r : EnergyRec) (t : YearTotals)
    (jf : Nat × EName) (m : EName) :
    (totalsOnlyFuel hasHeat r t jf).get m = t.get m + fuelDelta hasHeat r jf m := by
  unfold totalsOnlyFuel fuelDelta
  by_cases hg : hasHeat = false ∧ jf.2 = EName.heat
  · rw [if_pos hg, if_pos hg]
    ring
  · rw [if_neg hg, if_neg hg]
    rw [YearTotals.get_fuel_height_update, sector_fold_get]

/-- The fuels loop adds the summed fuelDelta values. -/
theorem fuel_fold_get (hasHeat : Bool) (r : EnergyRec) :
    ∀ (l : List (Nat × EName)) (t : YearTotals) (m : EName),
      (l.foldl (totalsOnlyFuel hasHeat r) t).get m =
        t.get m + (l.map (fun jf => fuelDelta hasHeat r jf m)).sum := by
  intro l
  induction l with
  | nil => intro t m; simp
  | cons jf rest ih =>
    intro t m
    rw [List.foldl_cons, ih, totalsOnlyFuel_get, List.map_cons, List.sum_cons]
    ring

/-- Closed form of every keyed field of the per-year totals other than
waste: the summed deltas of the fuels loop. -/
theorem buildYearTotal_get (hasHeat : Bool) (r : EnergyRec) (m : EName)
    (hm : m ≠ EName.waste) :
    (buildYearTotal hasHeat r).get m =
      ((FUELS.enum.drop 2).map (fun jf => fuelDelta hasHeat r jf m)).sum := by
  unfold buildYearTotal
  generalize hf : (FUELS.enum.drop 2).foldl (totalsOnlyFuel hasHeat r)
    (SummaryService.initTotals r) = tf
  cases hasHeat with
  | false =>
    dsimp only
    rw [YearTotals.get_milestone_update, if_neg (show ¬(false = true) by simp),
      YearTotals.get_waste_update, if_neg hm, ← hf, fuel_fold_get, initTotals_get,
      zero_add]
  | true =>
    dsimp only
    rw [YearTotals.get_milestone_update, if_pos (show true = true from rfl),
      YearTotals.get_waste_update, if_neg hm,
      YearTotals.get_waste_update, if_neg hm, ← hf, fuel_fold_get, initTotals_get,
      zero_add]

/-- Closed form of the waste total: the summed end-use waste values of the
record (plus the heat-sector waste when heat data is present). -/
theorem buildYearTotal_waste (hasHeat : Bool) (r : EnergyRec) :
    (buildYearTotal hasHeat r).waste =
      r.waste.res + r.waste.ag + r.waste.indus + r.waste.trans +
        (if hasHeat then r.waste.heat else 0) := by
  unfold buildYearTotal
  generalize (FUELS.enum.drop 2).foldl (totalsOnlyFuel hasHeat r)
    (SummaryService.initTotals r) = tf
  cases hasHeat with
  | false =>
    dsimp only
    rw [if_neg (show ¬(false = true) by simp), if_neg (show ¬(false = true) by simp),
      add_zero]
  | true =>
    dsimp only
    rw [if_pos (show true = true from rfl), if_pos (show true = true from rfl)]

/-! ### Field projections as keyed reads -/

theorem YearTotals.elec_eq_get (t : YearTotals) : t.elec = t.get EName.elec := rfl
theorem YearTotals.res_eq_get (t : YearTotals) : t.res = t.get EName.res := rfl
theorem YearTotals.ag_eq_get (t : YearTotals) : t.ag = t.get EName.ag := rfl
theorem YearTotals.indus_eq_get (t : YearTotals) : t.indus = t.get EName.indus := rfl
theorem YearTotals.trans_eq_get (t : YearTotals) : t.trans = t.get EName.trans := rfl
theorem YearTotals.solar_eq_get (t : YearTotals) : t.solar = t.get EName.solar := rfl
theorem YearTotals.nuclear_eq_get (t : YearTotals) : t.nuclear = t.get EName.nuclear := rfl
theorem YearTotals.hydro_eq_get (t : YearTotals) : t.hydro = t.get EName.hydro := rfl
theorem YearTotals.wind_eq_get (t : YearTotals) : t.wind = t.get EName.wind := rfl
theorem YearTotals.geo_eq_get (t : YearTotals) : t.geo = t.get EName.geo := rfl
theorem YearTotals.gas_eq_get (t : YearTotals) : t.gas = t.get EName.gas := rfl
theorem YearTotals.coal_eq_get (t : YearTotals) : t.coal = t.get EName.coal := rfl
theorem YearTotals.bio_eq_get (t : YearTotals) : t.bio = t.get EName.bio := rfl
theorem YearTotals.petro_eq_get (t : YearTotals) : t.petro = t.get EName.petro := rfl

/-! ### Closed forms of the per-year totals (per key, via the delta sums) -/

/-- Without heat data, each end-use sector total is the per-fuel column sum
plus the electricity consumption and the waste heat of that sector (folded in
once, on the first processed fuel). -/
theorem buildYearTotal_sector_false (r : EnergyRec) (m : EName)
    (hm : m = .res ∨ m = .ag ∨ m = .indus ∨ m = .trans) :
    (buildYearTotal false r).get m =
      r.solar.get m + r.nuclear.get m + r.hydro.get m + r.wind.get m + r.geo.get m +
      r.gas.get m + r.coal.get m + r.bio.get m + r.petro.get m +
      r.elec.get m + r.waste.get m := by
  rcases hm with rfl | rfl | rfl | rfl <;>
  · rw [buildYearTotal_get _ _ _ (by decide), fuels_enum_drop_two]
    simp [fuelDelta, sectorDelta, BOX_NAMES, EnergyRec.fuelObj]
    ring

/-- Without heat data, the electricity total is the sum of the elec columns
of the nine primary fuels (the j = 2 electricity/waste folding skips the
elec box). -/
theorem buildYearTotal_elec_false (r : EnergyRec) :
    (buildYearTotal false r).elec =
      r.solar.elec + r.nuclear.elec + r.hydro.elec + r.wind.elec + r.geo.elec +
      r.gas.elec + r.coal.elec + r.bio.elec + r.petro.elec := by
  rw [YearTotals.elec_eq_get, buildYearTotal_get _ _ _ (by decide), fuels_enum_drop_two]
  simp [fuelDelta, sectorDelta, BOX_NAMES, EnergyRec.fuelObj, Breakdown.get]
  ring

/-- Without heat data, every per-fuel total sums that fuel over all five
sectors, elec-generation included - for electricity-only and fossil fuels
alike. -/
theorem buildYearTotal_fuel_false (r : EnergyRec) (f : EName)
    (hf : f ∈ [EName.solar, .nuclear, .hydro, .wind, .geo, .gas, .coal, .bio, .petro]) :
    (buildYearTotal false r).get f =
      (r.fuelObj f).elec + (r.fuelObj f).res + (r.fuelObj f).ag +
      (r.fuelObj f).indus + (r.fuelObj f).trans := by
  fin_cases hf <;>
  · rw [buildYearTotal_get _ _ _ (by decide), fuels_enum_drop_two]
    simp [fuelDelta, sectorDelta, BOX_NAMES, EnergyRec.fuelObj, Breakdown.get]
    ring

/-- The per-fuel totals for either heat configuration: all five sectors,
plus the heat sector when heat data is present. -/
theorem buildYearTotal_fuel (hasHeat : Bool) (r : EnergyRec) (f : EName)
    (hf : f ∈ [EName.solar, .nuclear, .hydro, .wind, .geo, .gas, .coal, .bio, .petro]) :
    (buildYearTotal hasHeat r).get f =
      (r.fuelObj f).elec + (r.fuelObj f).res + (r.fuelObj f).ag +
      (r.fuelObj f).indus + (r.fuelObj f).trans +
      (if hasHeat then (r.fuelObj f).heat else 0) := by
  cases hasHeat <;> fin_cases hf <;>
  · rw [buildYearTotal_get _ _ _ (by decide), fuels_enum_drop_two]
    simp [fuelDelta, sectorDelta, BOX_NAMES, EnergyRec.fuelObj, Breakdown.get]
    ring

/-- The conservation identity the totals actually satisfy (hasHeatData
off): end-use sector totals plus the electricity total balance the fuel
totals plus the end-use electricity deliveries plus the waste total. -/
theorem conservation_identity (r : EnergyRec) :
    (buildYearTotal false r).res + (buildYearTotal false r).ag +
      (buildYearTotal false r).indus + (buildYearTotal false r).trans +
      (buildYearTotal false r).elec =
    (buildYearTotal false r).solar + (buildYearTotal false r).nuclear +
      (buildYearTotal false r).hydro + (buildYearTotal false r).wind +
      (buildYearTotal false r).geo + (buildYearTotal false r).gas +
      (buildYearTotal false r).coal + (buildYearTotal false r).bio +
      (buildYearTotal false r).petro +
      (r.elec.res + r.elec.ag + r.elec.indus + r.elec.trans) +
      (buildYearTotal false r).waste := by
  rw [buildYearTotal_elec_false,
    show (buildYearTotal false r).res = (buildYearTotal false r).get .res from rfl,
    show (buildYearTotal false r).ag = (buildYearTotal false r).get .ag from rfl,
    show (buildYearTotal false r).indus = (buildYearTotal false r).get .indus from rfl,
    show (buildYearTotal false r).trans = (buildYearTotal false r).get .trans from rfl,
    buildYearTotal_sector_false r .res (by decide),
    buildYearTotal_sector_false r .ag (by decide),
    buildYearTotal_sector_false r .indus (by decide),
    buildYearTotal_sector_false r .trans (by decide),
    buildYearTotal_waste,
    show (buildYearTotal false r).solar = (buildYearTotal false r).get .solar from rfl,
    show (buildYearTotal false r).nuclear = (buildYearTotal false r).get .nuclear from rfl,
    show (buildYearTotal false r).hydro = (buildYearTotal false r).get .hydro from rfl,
    show (buildYearTotal false r).wind = (buildYearTotal false r).get .wind from rfl,
    show (buildYearTotal false r).geo = (buildYearTotal false r).get .geo from rfl,
    show (buildYearTotal false r).gas = (buildYearTotal false r).get .gas from rfl,
    show (buildYearTotal false r).coal = (buildYearTotal false r).get .coal from rfl,
    show (buildYearTotal false r).bio = (buildYearTotal false r).get .bio from rfl,
    show (buildYearTotal false r).petro = (buildYearTotal false r).get .petro from rfl,
    buildYearTotal_fuel_false r .solar (by decide),
    buildYearTotal_fuel_false r .nuclear (by decide),
    buildYearTotal_fuel_false r .hydro (by decide),
    buildYearTotal_fuel_false r .wind (by decide),
    buildYearTotal_fuel_false r .geo (by decide),
    buildYearTotal_fuel_false r .gas (by decide),
    buildYearTotal_fuel_false r .coal (by decide),
    buildYearTotal_fuel_false r .bio (by decide),
    buildYearTotal_fuel_false r .petro (by decide)]
  simp only [Breakdown.get, EnergyRec.fuelObj, Bool.false_eq_true, if_false]
  ring

/-! ### Small list and singleton-dataset helpers -/

/-- The default head of a nonempty list is a member. -/
theorem headD_mem {α : Type _} {l : List α} (h : l ≠ []) (d : α) : l.headD d ∈ l := by
  cases l with
  | nil => exact absurd rfl h
  | cons a t => exact List.mem_cons_self a t

theorem sortByYear_singleton (r : EnergyRec) : sortByYear [r] = [r] := by
  simp [sortByYear, List.insertionSort, List.orderedInsert]

theorem buildTotals_singleton (hasHeat : Bool) (r : EnergyRec) :
    SummaryService.buildTotals hasHeat (sortByYear [r]) = [buildYearTotal hasHeat r] := by
  rw [sortByYear_singleton]
  simp [SummaryService.buildTotals, buildYearEntry_fst]

theorem listMaxQ_singleton (x : ℚ) : listMaxQ [x] = x := rfl

/-- buildTotals of a validated (hence nonempty) dataset is nonempty. -/
theorem buildTotals_ne_nil (hasHeat : Bool) (data : List EnergyRec) (hne : data ≠ []) :
    SummaryService.buildTotals hasHeat (sortByYear data) ≠ [] := by
  intro h0
  rw [SummaryService.buildTotals, List.map_eq_nil] at h0
  have hlen : (sortByYear data).length = data.length :=
    (List.perm_insertionSort (fun a b : EnergyRec => a.year ≤ b.year) data).length_eq
  rw [h0] at hlen
  exact hne (List.eq_nil_of_length_eq_zero hlen.symm)

/-! ### Nonnegativity of the totals under nonnegative inputs -/

/-- With all breakdown values nonnegative, each sector-loop delta is
nonnegative. -/
theorem sectorDelta_nonneg (hasHeat : Bool) (r : EnergyRec) (j : Nat) (f b m : EName)
    (h : ∀ f b, 0 ≤ (r.fuelObj f).get b) : 0 ≤ sectorDelta hasHeat r j f b m := by
  by_cases hg : hasHeat = false ∧ b = EName.heat
  · rw [sectorDelta, if_pos hg]
  · rw [sectorDelta, if_neg hg]
    have h1 : 0 ≤ (r.fuelObj f).get b := h f b
    have h2 : 0 ≤ r.elec.get b := h EName.elec b
    have h3 : 0 ≤ r.waste.get b := h EName.waste b
    have h4 : 0 ≤ r.heat.get b := h EName.heat b
    split_ifs <;>
    · repeat' apply add_nonneg
      all_goals first | exact le_rfl | exact h1 | exact h2 | exact h3 | exact h4

/-- With all breakdown values nonnegative, each fuels-loop delta is
nonnegative. -/
theorem fuelDelta_nonneg (hasHeat : Bool) (r : EnergyRec) (jf : Nat × EName) (m : EName)
    (h : ∀ f b, 0 ≤ (r.fuelObj f).get b) : 0 ≤ fuelDelta hasHeat r jf m := by
  by_cases hg : hasHeat = false ∧ jf.2 = EName.heat
  · rw [fuelDelta, if_pos hg]
  · rw [fuelDelta, if_neg hg]
    apply List.sum_nonneg
    intro x hx
    obtain ⟨b, _, rfl⟩ := List.mem_map.mp hx
    exact sectorDelta_nonneg hasHeat r jf.1 jf.2 b m h

/-- With all breakdown values nonnegative, every keyed total other than
waste is nonnegative. -/
theorem buildYearTotal_get_nonneg (hasHeat : Bool) (r : EnergyRec) (m : EName)
    (hm : m ≠ EName.waste) (h : ∀ f b, 0 ≤ (r.fuelObj f).get b) :
    0 ≤ (buildYearTotal hasHeat r).get m := by
  rw [buildYearTotal_get _ _ _ hm]
  apply List.sum_nonneg
  intro x hx
  obtain ⟨jf, _, rfl⟩ := List.mem_map.mp hx
  exact fuelDelta_nonneg hasHeat r jf m h

/-! ### Counterexample records -/

/-- One solar quad generated as electricity, nothing else. -/
def rC1 : EnergyRec := { junkRec with year := 1, solar := ⟨1, 0, 0, 0, 0, 0, 0⟩ }

def tC1 : YearTotals :=
  (SummaryService.buildTotals false (sortByYear [rC1])).headD junkTotals

/-- One gas quad burned for electricity generation, nothing else. -/
def rC2 : EnergyRec := { junkRec with year := 1, gas := ⟨1, 0, 0, 0, 0, 0, 0⟩ }

def tC2 : YearTotals :=
  (SummaryService.buildTotals false (sortByYear [rC2])).headD junkTotals

/-- A record with a negative residential solar value (validation does not
check signs). -/
def rC4 : EnergyRec := { junkRec with year := 1, solar := ⟨0, -10000, 0, 0, 0, 0, 0⟩ }

def SC4 : SummaryM := SummaryService.buildSummary false (sortByYear [rC4])

/-- The per-year totals of the all-zero one-record dataset, used to witness
the amended totals claims at a concrete input. -/
def tW : YearTotals :=
  (SummaryService.buildTotals false (sortByYear [mkRec 1])).headD junkTotals

/-! ### C1: conservation of the per-year totals -/

/-- C1 counterexample: on the validated one-record dataset rC1 the claimed
conservation equation fails under either reading of "total electricity
consumption" (the elec total, or the end-use electricity deliveries): the
sector side is 0 but the fuel side is 2, resp. 1. -/
theorem conservation_cex :
    validatedData [rC1] ∧
    tC1.res + tC1.ag + tC1.indus + tC1.trans ≠
      tC1.solar + tC1.nuclear + tC1.hydro + tC1.wind + tC1.geo + tC1.gas + tC1.coal +
        tC1.bio + tC1.petro + tC1.elec + tC1.waste ∧
    tC1.res + tC1.ag + tC1.indus + tC1.trans ≠
      tC1.solar + tC1.nuclear + tC1.hydro + tC1.wind + tC1.geo + tC1.gas + tC1.coal +
        tC1.bio + tC1.petro +
        (rC1.elec.res + rC1.elec.ag + rC1.elec.indus + rC1.elec.trans) + tC1.waste := by
  have htC1 : tC1 = buildYearTotal false rC1 := by
    rw [tC1, buildTotals_singleton]
    rfl
  have hres : tC1.res = 0 := by
    rw [htC1, show (buildYearTotal false rC1).res = (buildYearTotal false rC1).get .res from rfl,
      buildYearTotal_sector_false rC1 .res (by decide)]
    norm_num [rC1, junkRec, Breakdown.get]
  have hag : tC1.ag = 0 := by
    rw [htC1, show (buildYearTotal false rC1).ag = (buildYearTotal false rC1).get .ag from rfl,
      buildYearTotal_sector_false rC1 .ag (by decide)]
    norm_num [rC1, junkRec, Breakdown.get]
  have hindus : tC1.indus = 0 := by
    rw [htC1, show (buildYearTotal false rC1).indus = (buildYearTotal false rC1).get .indus from rfl,
      buildYearTotal_sector_false rC1 .indus (by decide)]
    norm_num [rC1, junkRec, Breakdown.get]
  have htrans : tC1.trans = 0 := by
    rw [htC1, show (buildYearTotal false rC1).trans = (buildYearTotal false rC1).get .trans from rfl,
      buildYearTotal_sector_false rC1 .trans (by decide)]
    norm_num [rC1, junkRec, Breakdown.get]
  have helec : tC1.elec = 1 := by
    rw [htC1, buildYearTotal_elec_false]
    norm_num [rC1, junkRec]
  have hsolar : tC1.solar = 1 := by
    rw [htC1, show (buildYearTotal false rC1).solar = (buildYearTotal false rC1).get .solar from rfl,
      buildYearTotal_fuel_false rC1 .solar (by decide)]
    norm_num [rC1, junkRec, EnergyRec.fuelObj]
  have hnuclear : tC1.nuclear = 0 := by
    rw [htC1, show (buildYearTotal false rC1).nuclear = (buildYearTotal false rC1).get .nuclear from rfl,
      buildYearTotal_fuel_false rC1 .nuclear (by decide)]
    norm_num [rC1, junkRec, EnergyRec.fuelObj]
  have hhydro : tC1.hydro = 0 := by
    rw [htC1, show (buildYearTotal false rC1).hydro = (buildYearTotal false rC1).get .hydro from rfl,
      buildYearTotal_fuel_false rC1 .hydro (by decide)]
    norm_num [rC1, junkRec, EnergyRec.fuelObj]
  have hwind : tC1.wind = 0 := by
    rw [htC1, show (buildYearTotal false rC1).wind = (buildYearTotal false rC1).get .wind from rfl,
      buildYearTotal_fuel_false rC1 .wind (by decide)]
    norm_num [rC1, junkRec, EnergyRec.fuelObj]
  have hgeo : tC1.geo = 0 := by
    rw [htC1, show (buildYearTotal false rC1).geo = (buildYearTotal false rC1).get .geo from rfl,
      buildYearTotal_fuel_false rC1 .geo (by decide)]
    norm_num [rC1, junkRec, EnergyRec.fuelObj]
  have hgas : tC1.gas = 0 := by
    rw [htC1, show (buildYearTotal false rC1).gas = (buildYearTotal false rC1).get .gas from rfl,
      buildYearTotal_fuel_false rC1 .gas (by decide)]
    norm_num [rC1, junkRec, EnergyRec.fuelObj]
  have hcoal : tC1.coal = 0 := by
    rw [htC1, show (buildYearTotal false rC1).coal = (buildYearTotal false rC1).get .coal from rfl,
      buildYearTotal_fuel_false rC1 .coal (by decide)]
    norm_num [rC1, junkRec, EnergyRec.fuelObj]
  have hbio : tC1.bio = 0 := by
    rw [htC1, show (buildYearTotal false rC1).bio = (buildYearTotal false rC1).get .bio from rfl,
      buildYearTotal_fuel_false rC1 .bio (by decide)]
    norm_num [rC1, junkRec, EnergyRec.fuelObj]
  have hpetro : tC1.petro = 0 := by
    rw [htC1, show (buildYearTotal false rC1).petro = (buildYearTotal false rC1).get .petro from rfl,
      buildYearTotal_fuel_false rC1 .petro (by decide)]
    norm_num [rC1, junkRec, EnergyRec.fuelObj]
  have hwaste : tC1.waste = 0 := by
    rw [htC1, buildYearTotal_waste]
    norm_num [rC1, junkRec]
  refine ⟨⟨by decide, by decide⟩, ?_, ?_⟩
  · rw [hres, hag, hindus, htrans, helec, hsolar, hnuclear, hhydro, hwind, hgeo,
      hgas, hcoal, hbio, hpetro, hwaste]
    norm_num
  · rw [hres, hag, hindus, htrans, hsolar, hnuclear, hhydro, hwind, hgeo,
      hgas, hcoal, hbio, hpetro, hwaste]
    norm_num [rC1, junkRec]

/-- C1 amended: for every YearTotals of a validated dataset (hasHeatData
off), the end-use sector totals plus the electricity total equal the nine
fuel totals plus the record's end-use electricity deliveries plus the waste
total. -/
theorem conservation_amended (data : List EnergyRec) (hv : validatedData data)
    (t : YearTotals) (ht : t ∈ SummaryService.buildTotals false (sortByYear data)) :
    ∃ r ∈ sortByYear data,
      t.res + t.ag + t.indus + t.trans + t.elec =
        t.solar + t.nuclear + t.hydro + t.wind + t.geo + t.gas + t.coal + t.bio + t.petro +
          (r.elec.res + r.elec.ag + r.elec.indus + r.elec.trans) + t.waste := by
  obtain ⟨r, hr, rfl⟩ := List.mem_map.mp ht
  refine ⟨r, hr, ?_⟩
  rw [buildYearEntry_fst]
  exact conservation_identity r

/-- C1 witness: the amended conservation identity evaluated on the all-zero
one-record dataset. -/
theorem conservation_amended_witness :
    ∃ r ∈ sortByYear [mkRec 1],
      tW.res + tW.ag + tW.indus + tW.trans + tW.elec =
        tW.solar + tW.nuclear + tW.hydro + tW.wind + tW.geo + tW.gas + tW.coal + tW.bio +
          tW.petro + (r.elec.res + r.elec.ag + r.elec.indus + r.elec.trans) + tW.waste :=
  conservation_amended [mkRec 1] ⟨by decide, by decide⟩ tW
    (by unfold tW; rw [buildTotals_singleton]; exact List.mem_cons_self _ _)

/-! ### C2: per-fuel totals -/

/-- C2 counterexample: for the fossil fuel gas the total is not the end-use
sum; the elec-generation sector is included (1 quad of gas burned for
electricity yields a gas total of 1, not 0). -/
theorem fuel_totals_cex :
    validatedData [rC2] ∧
    tC2.gas ≠ rC2.gas.res + rC2.gas.ag + rC2.gas.indus + rC2.gas.trans ∧
    tC2.gas = rC2.gas.elec + rC2.gas.res + rC2.gas.ag + rC2.gas.indus + rC2.gas.trans := by
  have h : tC2 = buildYearTotal false rC2 := by
    rw [tC2, buildTotals_singleton]
    rfl
  have hg : tC2.gas = 1 := by
    rw [h, show (buildYearTotal false rC2).gas = (buildYearTotal false rC2).get .gas from rfl,
      buildYearTotal_fuel_false rC2 .gas (by decide)]
    norm_num [rC2, junkRec, EnergyRec.fuelObj]
  refine ⟨⟨by decide, by decide⟩, ?_, ?_⟩
  · rw [hg]; norm_num [rC2, junkRec]
  · rw [hg]; norm_num [rC2, junkRec]

/-- C2 amended: every per-fuel total - electricity-only and fossil fuels
alike - sums that fuel over all five sectors including elec-generation
(plus the heat sector when heat data is present). -/
theorem fuel_totals_amended (hasHeat : Bool) (data : List EnergyRec)
    (hv : validatedData data) (t : YearTotals)
    (ht : t ∈ SummaryService.buildTotals hasHeat (sortByYear data)) :
    ∃ r ∈ sortByYear data,
      ∀ f ∈ [EName.solar, .nuclear, .hydro, .wind, .geo, .gas, .coal, .bio, .petro],
        t.get f = (r.fuelObj f).elec + (r.fuelObj f).res + (r.fuelObj f).ag +
          (r.fuelObj f).indus + (r.fuelObj f).trans +
          (if hasHeat then (r.fuelObj f).heat else 0) := by
  obtain ⟨r, hr, rfl⟩ := List.mem_map.mp ht
  refine ⟨r, hr, fun f hf => ?_⟩
  rw [buildYearEntry_fst]
  exact buildYearTotal_fuel hasHeat r f hf

/-- C2 witness: the amended per-fuel totals evaluated on the all-zero
one-record dataset. -/
theorem fuel_totals_amended_witness :
    ∃ r ∈ sortByYear [mkRec 1],
      ∀ f ∈ [EName.solar, .nuclear, .hydro, .wind, .geo, .gas, .coal, .bio, .petro],
        tW.get f = (r.fuelObj f).elec + (r.fuelObj f).res + (r.fuelObj f).ag +
          (r.fuelObj f).indus + (r.fuelObj f).trans +
          (if false then (r.fuelObj f).heat else 0) :=
  fuel_totals_amended false [mkRec 1] ⟨by decide, by decide⟩ tW
    (by unfold tW; rw [buildTotals_singleton]; exact List.mem_cons_self _ _)

/-! ### C4: box stacking -/

/-- C4 counterexample: validation does not reject negative values, and a
large negative residential total drives boxTops.ag below boxTops.res, so the
claimed strict increase fails on a validated dataset. -/
theorem boxTops_cex : validatedData [rC4] ∧ SC4.boxTops.ag < SC4.boxTops.res := by
  have hres : (buildYearTotal false rC4).res = -10000 := by
    rw [show (buildYearTotal false rC4).res = (buildYearTotal false rC4).get .res from rfl,
      buildYearTotal_sector_false rC4 .res (by decide)]
    norm_num [rC4, junkRec, Breakdown.get]
  have hag : SC4.boxTops.ag = (ELEC_BOX_Y + 50) +
      listMaxQ ((SummaryService.buildTotals false (sortByYear [rC4])).map
        (fun t => t.res)) * SCALE + RIGHT_GAP := rfl
  have hres' : SC4.boxTops.res = ELEC_BOX_Y + 50 := rfl
  refine ⟨⟨by decide, by decide⟩, ?_⟩
  rw [hag, hres', buildTotals_singleton, List.map_cons, List.map_nil,
    listMaxQ_singleton, hres]
  norm_num [ELEC_BOX_Y, SCALE, RIGHT_GAP, LEFT_GAP]

/-- C4 amended: under the added hypothesis that every breakdown value is
nonnegative, the box tops are strictly increasing in the stacking order, and
each later top is the previous top plus the previous maximum scaled height
plus RIGHT_GAP (the stacking equations hold unconditionally). -/
theorem boxTops_stack (hasHeat : Bool) (data : List EnergyRec) (hv : validatedData data)
    (hpos : ∀ r ∈ data, ∀ f b, 0 ≤ (r.fuelObj f).get b) :
    (SummaryService.buildSummary hasHeat (sortByYear data)).boxTops.ag =
        (SummaryService.buildSummary hasHeat (sortByYear data)).boxTops.res +
        (SummaryService.buildSummary hasHeat (sortByYear data)).maxes.res * SCALE + RIGHT_GAP ∧
    (SummaryService.buildSummary hasHeat (sortByYear data)).boxTops.indus =
        (SummaryService.buildSummary hasHeat (sortByYear data)).boxTops.ag +
        (SummaryService.buildSummary hasHeat (sortByYear data)).maxes.ag * SCALE + RIGHT_GAP ∧
    (SummaryService.buildSummary hasHeat (sortByYear data)).boxTops.trans =
        (SummaryService.buildSummary hasHeat (sortByYear data)).boxTops.indus +
        (SummaryService.buildSummary hasHeat (sortByYear data)).maxes.indus * SCALE + RIGHT_GAP ∧
    (SummaryService.buildSummary hasHeat (sortByYear data)).boxTops.res <
        (SummaryService.buildSummary hasHeat (sortByYear data)).boxTops.ag ∧
    (SummaryService.buildSummary hasHeat (sortByYear data)).boxTops.ag <
        (SummaryService.buildSummary hasHeat (sortByYear data)).boxTops.indus ∧
    (SummaryService.buildSummary hasHeat (sortByYear data)).boxTops.indus <
        (SummaryService.buildSummary hasHeat (sortByYear data)).boxTops.trans := by
  have hmem : ∀ t ∈ SummaryService.buildTotals hasHeat (sortByYear data),
      ∀ m, m ≠ EName.waste → 0 ≤ t.get m := by
    intro t ht m hm
    obtain ⟨r, hr, rfl⟩ := List.mem_map.mp ht
    have hr' : r ∈ data :=
      ((List.perm_insertionSort (fun a b : EnergyRec => a.year ≤ b.year) data).mem_iff).mp hr
    rw [buildYearEntry_fst]
    exact buildYearTotal_get_nonneg hasHeat r m hm (hpos r hr')
  have hne := buildTotals_ne_nil hasHeat data hv.1
  have hmax : ∀ (p : YearTotals → ℚ) (m : EName), m ≠ EName.waste →
      (∀ t : YearTotals, p t = t.get m) →
      0 ≤ listMaxQ ((SummaryService.buildTotals hasHeat (sortByYear data)).map p) := by
    intro p m hm hp
    apply listMaxQ_nonneg
    · simp only [ne_eq, List.map_eq_nil]
      exact hne
    · intro x hx
      obtain ⟨t, ht, rfl⟩ := List.mem_map.mp hx
      rw [hp]
      exact hmem t ht m hm
  have hres : 0 ≤ (SummaryService.buildSummary hasHeat (sortByYear data)).maxes.res :=
    hmax (fun t => t.res) EName.res (by decide) (fun t => rfl)
  have hag : 0 ≤ (SummaryService.buildSummary hasHeat (sortByYear data)).maxes.ag :=
    hmax (fun t => t.ag) EName.ag (by decide) (fun t => rfl)
  have hindus : 0 ≤ (SummaryService.buildSummary hasHeat (sortByYear data)).maxes.indus :=
    hmax (fun t => t.indus) EName.indus (by decide) (fun t => rfl)
  refine ⟨rfl, rfl, rfl, ?_, ?_, ?_⟩
  · have h1 : 0 ≤ (SummaryService.buildSummary hasHeat (sortByYear data)).maxes.res * SCALE :=
      mul_nonneg hres (by norm_num [SCALE])
    have h2 : (0 : ℚ) < RIGHT_GAP := by norm_num [RIGHT_GAP, LEFT_GAP]
    calc (SummaryService.buildSummary hasHeat (sortByYear data)).boxTops.res
        < (SummaryService.buildSummary hasHeat (sortByYear data)).boxTops.res +
            ((SummaryService.buildSummary hasHeat (sortByYear data)).maxes.res * SCALE
              + RIGHT_GAP) := by linarith
      _ = (SummaryService.buildSummary hasHeat (sortByYear data)).boxTops.ag := by
            rw [show (SummaryService.buildSummary hasHeat (sortByYear data)).boxTops.ag =
              (SummaryService.buildSummary hasHeat (sortByYear data)).boxTops.res +
              (SummaryService.buildSummary hasHeat (sortByYear data)).maxes.res * SCALE +
              RIGHT_GAP from rfl]
            ring
  · have h1 : 0 ≤ (SummaryService.buildSummary hasHeat (sortByYear data)).maxes.ag * SCALE :=
      mul_nonneg hag (by norm_num [SCALE])
    have h2 : (0 : ℚ) < RIGHT_GAP := by norm_num [RIGHT_GAP, LEFT_GAP]
    calc (SummaryService.buildSummary hasHeat (sortByYear data)).boxTops.ag
        < (SummaryService.buildSummary hasHeat (sortByYear data)).boxTops.ag +
            ((SummaryService.buildSummary hasHeat (sortByYear data)).maxes.ag * SCALE
              + RIGHT_GAP) := by linarith
      _ = (SummaryService.buildSummary hasHeat (sortByYear data)).boxTops.indus := by
            rw [show (SummaryService.buildSummary hasHeat (sortByYear data)).boxTops.indus =
              (SummaryService.buildSummary hasHeat (sortByYear data)).boxTops.ag +
              (SummaryService.buildSummary hasHeat (sortByYear data)).maxes.ag * SCALE +
              RIGHT_GAP from rfl]
            ring
  · have h1 : 0 ≤ (SummaryService.buildSummary hasHeat (sortByYear data)).maxes.indus * SCALE :=
      mul_nonneg hindus (by norm_num [SCALE])
    have h2 : (0 : ℚ) < RIGHT_GAP := by norm_num [RIGHT_GAP, LEFT_GAP]
    calc (SummaryService.buildSummary hasHeat (sortByYear data)).boxTops.indus
        < (SummaryService.buildSummary hasHeat (sortByYear data)).boxTops.indus +
            ((SummaryService.buildSummary hasHeat (sortByYear data)).maxes.indus * SCALE
              + RIGHT_GAP) := by linarith
      _ = (SummaryService.buildSummary hasHeat (sortByYear data)).boxTops.trans := by
            rw [show (SummaryService.buildSummary hasHeat (sortByYear data)).boxTops.trans =
              (SummaryService.buildSummary hasHeat (sortByYear data)).boxTops.indus +
              (SummaryService.buildSummary hasHeat (sortByYear data)).maxes.indus * SCALE +
              RIGHT_GAP from rfl]
            ring

/-- The summary of the all-zero one-record dataset, for the C4 witness. -/
def SW : SummaryM := SummaryService.buildSummary false (sortByYear [mkRec 1])

/-- C4 witness: the amended stacking claim evaluated on the all-zero
one-record dataset (every value is 0, hence nonnegative). -/
theorem boxTops_stack_witness :
    SW.boxTops.ag = SW.boxTops.res + SW.maxes.res * SCALE + RIGHT_GAP ∧
    SW.boxTops.indus = SW.boxTops.ag + SW.maxes.ag * SCALE + RIGHT_GAP ∧
    SW.boxTops.trans = SW.boxTops.indus + SW.maxes.indus * SCALE + RIGHT_GAP ∧
    SW.boxTops.res < SW.boxTops.ag ∧
    SW.boxTops.ag < SW.boxTops.indus ∧
    SW.boxTops.indus < SW.boxTops.trans :=
  boxTops_stack false [mkRec 1] ⟨by decide, by decide⟩
    (by
      intro r hr f b
      simp only [List.mem_singleton] at hr
      subst hr
      cases f <;> cases b <;> norm_num [mkRec, junkRec, EnergyRec.fuelObj, Breakdown.get])

/-! ### C7: record immutability through graph building -/

/-- The per-fuel record write of GraphService.calculateGraphY in isolation:
fuelObj.total = 0 (heat skipped without heat data). -/
def recStep (cfg : ConfigM) (r : EnergyRec) (jf : Nat × EName) : EnergyRec :=
  if cfg.hasHeatData = false ∧ jf.2 = EName.heat then r
  else r.updateFuel jf.2 (fun o => { o with total := 0 })

/-- The record after one year of calculateGraphY: every processed fuel gets
total = 0. -/
def recAfter (cfg : ConfigM) (r : EnergyRec) : EnergyRec :=
  FUELS.enum.foldl (recStep cfg) r

/-- The record component of the fuels-loop body is exactly recStep. -/
theorem graphYFuelStep_snd (cfg : ConfigM) (boxTops : BoxTopsM) (totals : YearTotals)
    (p : GraphService.YearYState × EnergyRec) (jf : Nat × EName) :
    (GraphService.graphYFuelStep cfg boxTops totals p jf).2 = recStep cfg p.2 jf := by
  unfold GraphService.graphYFuelStep recStep
  dsimp only
  split_ifs <;> rfl

/-- The record component of one year of calculateGraphY is recAfter. -/
theorem graphYearY_snd (cfg : ConfigM) (summary : SummaryM) (iT : YearTotals)
    (r : EnergyRec) : (GraphService.graphYearY cfg summary iT r).2 = recAfter cfg r := by
  unfold GraphService.graphYearY recAfter
  dsimp only
  exact foldl_snd_eq _ _ (fun p a => graphYFuelStep_snd cfg summary.boxTops _ p a)
    FUELS.enum _

/-- The record list buildGraphs returns is the sorted input mapped through
recAfter. -/
theorem buildGraphs_snd_eq (cfg : ConfigM) (input : List EnergyRec) :
    (GraphService.buildGraphs cfg input).2 = (sortByYear input).map (recAfter cfg) := by
  unfold GraphService.buildGraphs GraphService.calculateGraphY
  dsimp only
  have key : ∀ (l : List EnergyRec) (k : Nat),
      ((List.enumFrom k l).map (fun ir => GraphService.graphYearY cfg
        (SummaryService.buildSummary cfg.hasHeatData (sortByYear input))
        ((SummaryService.buildSummary cfg.hasHeatData (sortByYear input)).totals.getD
          ir.1 junkTotals) ir.2)).map Prod.snd = l.map (recAfter cfg) := by
    intro l
    induction l with
    | nil => intro k; rfl
    | cons a t ih =>
      intro k
      simp only [List.enumFrom, List.map_cons]
      rw [ih (k + 1), graphYearY_snd]
  exact key (sortByYear input) 0

/-- Writing total = 0 into any fuel changes no sector read of any fuel
(Breakdown.get never reads total). -/
theorem updateFuelTotal_get (r : EnergyRec) (n f b : EName) :
    ((r.updateFuel n (fun o => { o with total := 0 })).fuelObj f).get b =
      (r.fuelObj f).get b := by
  cases n <;> cases f <;> first | rfl | (cases b <;> rfl)

/-- Writing total = 0 into any fuel preserves the year. -/
theorem updateFuelTotal_year (r : EnergyRec) (n : EName) :
    (r.updateFuel n (fun o => { o with total := 0 })).year = r.year := by
  cases n <;> rfl

/-- The recStep fold preserves the year and every sector read. -/
theorem recStep_fold_invariant (cfg : ConfigM) :
    ∀ (l : List (Nat × EName)) (r : EnergyRec),
      (l.foldl (recStep cfg) r).year = r.year ∧
      ∀ f b, ((l.foldl (recStep cfg) r).fuelObj f).get b = (r.fuelObj f).get b := by
  intro l
  induction l with
  | nil => intro r; exact ⟨rfl, fun f b => rfl⟩
  | cons jf rest ih =>
    intro r
    rw [List.foldl_cons]
    refine ⟨?_, fun f b => ?_⟩
    · rw [(ih (recStep cfg r jf)).1]
      unfold recStep
      split_ifs
      · rfl
      · exact updateFuelTotal_year r jf.2
    · rw [(ih (recStep cfg r jf)).2 f b]
      unfold recStep
      split_ifs
      · rfl
      · exact updateFuelTotal_get r jf.2 f b

/-- A record with a nonzero dynamically attached gas total. -/
def rC7 : EnergyRec := { junkRec with year := 1, gas := ⟨0, 0, 0, 0, 0, 0, 5⟩ }

/-- A concrete configuration (heat data off) for the graph-pipeline
witnesses and counterexamples; the square-root parameters are arbitrary. -/
def cfgW : ConfigM := { hasHeatData := false, width := 1000, sr3 := 2, hsr3 := 1 }

/-- C7 counterexample: buildGraphs mutates the records - the gas total
field of the stored record is overwritten with 0. -/
theorem record_mutation_cex :
    validatedData [rC7] ∧
    rC7.gas.total = 5 ∧
    ((GraphService.buildGraphs cfgW [rC7]).2.headD junkRec).gas.total = 0 := by
  have h2 : (GraphService.buildGraphs cfgW [rC7]).2 = [recAfter cfgW rC7] := by
    rw [buildGraphs_snd_eq, sortByYear_singleton]
    rfl
  refine ⟨⟨by decide, by decide⟩, by decide, ?_⟩
  rw [h2]
  decide

/-- C7 amended: graph building preserves the year and every per-fuel sector
value of every record (only the dynamically attached total fields are
overwritten). -/
theorem record_immutability_amended (cfg : ConfigM) (input : List EnergyRec) (i : Nat)
    (hi : i < (sortByYear input).length) :
    ((GraphService.buildGraphs cfg input).2.getD i junkRec).year =
      ((sortByYear input).getD i junkRec).year ∧
    ∀ f b, (((GraphService.buildGraphs cfg input).2.getD i junkRec).fuelObj f).get b =
      (((sortByYear input).getD i junkRec).fuelObj f).get b := by
  rw [buildGraphs_snd_eq]
  have hmap : ((sortByYear input).map (recAfter cfg)).getD i junkRec =
      recAfter cfg ((sortByYear input).getD i junkRec) := by
    have hg : (sortByYear input).get? i = some ((sortByYear input).get ⟨i, hi⟩) :=
      List.get?_eq_get hi
    rw [List.getD_eq_get?, List.getD_eq_get?, List.get?_map, hg]
    rfl
  rw [hmap]
  exact ⟨(recStep_fold_invariant cfg FUELS.enum _).1,
    fun f b => (recStep_fold_invariant cfg FUELS.enum _).2 f b⟩

/-- C7 witness: year and sector preservation evaluated at index 0 of the
one-record dataset. -/
theorem record_immutability_amended_witness :
    ((GraphService.buildGraphs cfgW [mkRec 1]).2.getD 0 junkRec).year =
      ((sortByYear [mkRec 1]).getD 0 junkRec).year ∧
    ∀ f b, (((GraphService.buildGraphs cfgW [mkRec 1]).2.getD 0 junkRec).fuelObj f).get b =
      (((sortByYear [mkRec 1]).getD 0 junkRec).fuelObj f).get b :=
  record_immutability_amended cfgW [mkRec 1] 0 (by rw [sortByYear_singleton]; decide)

/-! ### C3: the stroke-value law through the geometry passes -/

/-- The default read of an array position under the law: out-of-range reads
give the zero stroke, which satisfies the law trivially. -/
theorem getD_law {arr : List GraphStroke} (h : ∀ g ∈ arr, g.stroke = g.value * SCALE)
    (k : Nat) : (arr.getD k junkStroke).stroke = (arr.getD k junkStroke).value * SCALE := by
  rcases hq : arr.get? k with _ | g
  · rw [List.getD_eq_get?, hq]
    simp [junkStroke]
  · rw [List.getD_eq_get?, hq]
    exact h g (List.get?_mem hq)

/-- Membership in a one-element append. -/
theorem mem_append_single {α : Type _} {l : List α} {m g : α} (hg : g ∈ l ++ [m]) :
    g ∈ l ∨ g = m := by
  rcases List.mem_append.mp hg with h | h
  · exact Or.inl h
  · exact Or.inr (List.mem_singleton.mp h)

/-- Membership in a two-element append chain. -/
theorem mem_append_double {α : Type _} {l : List α} {m c g : α}
    (hg : g ∈ (l ++ [m]) ++ [c]) : g ∈ l ∨ g = m ∨ g = c := by
  rcases List.mem_append.mp hg with h | h
  · rcases List.mem_append.mp h with h2 | h2
    · exact Or.inl h2
    · exact Or.inr (Or.inl (List.mem_singleton.mp h2))
  · exact Or.inr (Or.inr (List.mem_singleton.mp h))

/-- Peeling one state-level conditional off a graph membership fact. -/
theorem mem_ite_graph {c : Prop} [Decidable c] {A B : GraphService.YearYState}
    {g : GraphStroke} (hg : g ∈ (if c then A else B).graph) :
    g ∈ A.graph ∨ g ∈ B.graph := by
  by_cases hc : c
  · rw [if_pos hc] at hg
    exact Or.inl hg
  · rw [if_neg hc] at hg
    exact Or.inr hg

/-- A self-loop iteration of the sectors loop leaves the state unchanged. -/
theorem graphYBoxStep_self (cfg : ConfigM) (boxTops : BoxTopsM) (totals : YearTotals)
    (wasteObj : Breakdown) (j : Nat) (fuelName : EName) (fuelObj : Breakdown)
    (st : GraphService.YearYState) :
    GraphService.graphYBoxStep cfg boxTops totals wasteObj j fuelName fuelObj st fuelName
      = st := by
  unfold GraphService.graphYBoxStep
  rw [if_pos rfl]

/-- Every stroke the sectors loop appends satisfies stroke = value * SCALE:
the main stroke is fuelObj[box] * SCALE, the waste clone is
wasteObj[box] * SCALE. -/
theorem graphYBoxStep_law (cfg : ConfigM) (boxTops : BoxTopsM) (totals : YearTotals)
    (wasteObj : Breakdown) (j : Nat) (fuelName : EName) (fuelObj : Breakdown)
    (st : GraphService.YearYState) (b : EName)
    (hst : ∀ g ∈ st.graph, g.stroke = g.value * SCALE) :
    ∀ g ∈ (GraphService.graphYBoxStep cfg boxTops totals wasteObj j fuelName fuelObj
      st b).graph, g.stroke = g.value * SCALE := by
  unfold GraphService.graphYBoxStep
  by_cases h1 : fuelName = b
  · rw [if_pos h1]; exact hst
  rw [if_neg h1]
  by_cases h2 : cfg.hasHeatData = false ∧ b = EName.heat
  · rw [if_pos h2]; exact hst
  rw [if_neg h2]
  dsimp only
  intro g hg
  repeat' rcases mem_ite_graph hg with hg | hg
  all_goals
    first
      | (rcases mem_append_double hg with hg' | rfl | rfl)
      | (rcases mem_append_single hg with hg' | rfl)
  all_goals
    first
      | exact hst g hg'
      | (dsimp only
         first
           | (simp only [apply_ite (fun s : GraphStroke => s.stroke),
                apply_ite (fun s : GraphStroke => s.value), ite_self]
              ring1)
           | ring1)

/-- The law is preserved by the whole sectors loop. -/
theorem graphYBox_fold_law (cfg : ConfigM) (boxTops : BoxTopsM) (totals : YearTotals)
    (wasteObj : Breakdown) (j : Nat) (fuelName : EName) (fuelObj : Breakdown) :
    ∀ (boxes : List EName) (st : GraphService.YearYState),
      (∀ g ∈ st.graph, g.stroke = g.value * SCALE) →
      ∀ g ∈ (boxes.foldl (GraphService.graphYBoxStep cfg boxTops totals wasteObj j
        fuelName fuelObj) st).graph, g.stroke = g.value * SCALE := by
  intro boxes st hst
  exact foldl_preserves (fun s : GraphService.YearYState =>
      ∀ g ∈ s.graph, g.stroke = g.value * SCALE)
    _ (fun s a hs => graphYBoxStep_law cfg boxTops totals wasteObj j fuelName fuelObj s a hs)
    boxes st hst

/-- The law is preserved by one fuels-loop iteration. -/
theorem graphYFuelStep_law (cfg : ConfigM) (boxTops : BoxTopsM) (totals : YearTotals)
    (p : GraphService.YearYState × EnergyRec) (jf : Nat × EName)
    (hst : ∀ g ∈ p.1.graph, g.stroke = g.value * SCALE) :
    ∀ g ∈ (GraphService.graphYFuelStep cfg boxTops totals p jf).1.graph,
      g.stroke = g.value * SCALE := by
  unfold GraphService.graphYFuelStep
  dsimp only
  split_ifs
  · exact hst
  · exact graphYBox_fold_law cfg boxTops totals _ jf.1 jf.2 _ (GraphService.boxesFor jf.2)
      p.1 hst
  · exact graphYBox_fold_law cfg boxTops totals _ jf.1 jf.2 _ (GraphService.boxesFor jf.2)
      p.1 hst

/-- Every stroke of one year of the Y pass satisfies the law. -/
theorem graphYearY_law (cfg : ConfigM) (summary : SummaryM) (iT : YearTotals)
    (r : EnergyRec) :
    ∀ g ∈ (GraphService.graphYearY cfg summary iT r).1.graph,
      g.stroke = g.value * SCALE := by
  unfold GraphService.graphYearY
  dsimp only
  intro g hg
  exact foldl_preserves (fun p : GraphService.YearYState × EnergyRec =>
      ∀ g' ∈ p.1.graph, g'.stroke = g'.value * SCALE)
    _ (fun p a hp => graphYFuelStep_law cfg summary.boxTops _ p a hp)
    FUELS.enum _ (fun g' hg' => absurd hg' (List.not_mem_nil g')) g hg

/-- The X-ups update step touches only control points; the law survives. -/
theorem xUpsStep_law (cfg : ConfigM) (totals : YearTotals)
    (st : List GraphStroke × OffY × Option EName) (jk : Nat × Nat)
    (h : ∀ g ∈ st.1, g.stroke = g.value * SCALE) :
    ∀ g ∈ (GraphService.xUpsStep cfg totals st jk).1, g.stroke = g.value * SCALE := by
  unfold GraphService.xUpsStep
  dsimp only
  intro g hg
  rcases List.mem_or_eq_of_mem_set hg with hg' | rfl
  · exact h g hg'
  · dsimp only
    exact getD_law h jk.2

/-- The X-downs update step touches only control points; the law survives. -/
theorem xDownsStep_law (cfg : ConfigM) (totals : YearTotals)
    (st : List GraphStroke × OffY × Option EName) (jk : Nat × Nat)
    (h : ∀ g ∈ st.1, g.stroke = g.value * SCALE) :
    ∀ g ∈ (GraphService.xDownsStep cfg totals st jk).1, g.stroke = g.value * SCALE := by
  unfold GraphService.xDownsStep
  dsimp only
  intro g hg
  rcases List.mem_or_eq_of_mem_set hg with hg' | rfl
  · exact h g hg'
  · dsimp only
    exact getD_law h jk.2

/-- The spacing walk shifts cc, c and b; the law survives. -/
theorem spaceStep_law (cfg : ConfigM) (st : List GraphStroke × Option GraphStroke)
    (jk : Nat × Nat) (h : ∀ g ∈ st.1, g.stroke = g.value * SCALE) :
    ∀ g ∈ (GraphService.spaceStep cfg st jk).1, g.stroke = g.value * SCALE := by
  obtain ⟨arr, po⟩ := st
  unfold GraphService.spaceStep
  dsimp only at h ⊢
  by_cases hjk : jk.1 = 0
  · rw [if_pos hjk]
    exact h
  · rw [if_neg hjk]
    rcases po with _ | prev
    · exact h
    · dsimp only
      intro g hg
      rcases List.mem_or_eq_of_mem_set hg with hg' | rfl
      · exact h g hg'
      · dsimp only
        exact getD_law h jk.2

/-- The waste split keeps each flow's stroke and value; the law survives. -/
theorem wasteStep_law (st : List GraphStroke × Option GraphStroke) (jk : Nat × Nat)
    (h : ∀ g ∈ st.1, g.stroke = g.value * SCALE) :
    ∀ g ∈ (GraphService.wasteStep st jk).1, g.stroke = g.value * SCALE := by
  obtain ⟨arr, po⟩ := st
  unfold GraphService.wasteStep
  dsimp only at h ⊢
  split_ifs
  · rcases po with _ | prev <;>
    · dsimp only
      intro g hg
      rcases List.mem_or_eq_of_mem_set hg with hg' | rfl
      · exact h g hg'
      · dsimp only
        exact getD_law h jk.2
  · exact h

/-- The law is preserved by the per-year X-ups pass. -/
theorem calculateGraphXUps_law (cfg : ConfigM) (gd : GraphData)
    (h : ∀ g ∈ gd.graph, g.stroke = g.value * SCALE) :
    ∀ g ∈ (GraphService.calculateGraphXUps cfg gd).graph,
      g.stroke = g.value * SCALE := by
  unfold GraphService.calculateGraphXUps
  dsimp only
  intro g hg
  exact foldl_preserves (fun p : List GraphStroke × OffY × Option EName =>
      ∀ g' ∈ p.1, g'.stroke = g'.value * SCALE)
    _ (fun p a hp => xUpsStep_law cfg gd.totals p a hp)
    _ (gd.graph, gd.offsets.y, none) h g hg

/-- The law is preserved by the per-year X-downs pass. -/
theorem calculateGraphXDowns_law (cfg : ConfigM) (gd : GraphData)
    (h : ∀ g ∈ gd.graph, g.stroke = g.value * SCALE) :
    ∀ g ∈ (GraphService.calculateGraphXDowns cfg gd).graph,
      g.stroke = g.value * SCALE := by
  unfold GraphService.calculateGraphXDowns
  dsimp only
  intro g hg
  exact foldl_preserves (fun p : List GraphStroke × OffY × Option EName =>
      ∀ g' ∈ p.1, g'.stroke = g'.value * SCALE)
    _ (fun p a hp => xDownsStep_law cfg gd.totals p a hp)
    _ (gd.graph, gd.offsets.y, none) h g hg

/-- The law is preserved by the per-year spacing pass. -/
theorem spaceUpsAndDowns_law (cfg : ConfigM) (gd : GraphData)
    (h : ∀ g ∈ gd.graph, g.stroke = g.value * SCALE) :
    ∀ g ∈ (GraphService.spaceUpsAndDowns cfg gd).graph,
      g.stroke = g.value * SCALE := by
  unfold GraphService.spaceUpsAndDowns
  dsimp only
  intro g hg
  have h0 : ∀ g' ∈ gd.graph.insertionSort (fun a b => b.cc.x ≤ a.cc.x),
      g'.stroke = g'.value * SCALE :=
    fun g' hg' => h g' ((List.perm_insertionSort _ _).mem_iff.mp hg')
  have h1 := foldl_preserves (fun p : List GraphStroke × Option GraphStroke =>
      ∀ g' ∈ p.1, g'.stroke = g'.value * SCALE)
    _ (fun p a hp => spaceStep_law cfg p a hp)
    ((GraphService.filteredIdx GraphService.notElecHeatBox
      (gd.graph.insertionSort (fun a b => b.cc.x ≤ a.cc.x))).enum)
    (gd.graph.insertionSort (fun a b => b.cc.x ≤ a.cc.x), none) h0
  exact foldl_preserves (fun a : List GraphStroke =>
      ∀ g' ∈ a, g'.stroke = g'.value * SCALE)
    _ (fun a k ha => by
      intro g' hg'
      rcases List.mem_or_eq_of_mem_set hg' with hh | rfl
      · exact ha g' hh
      · dsimp only
        exact getD_law ha k)
    _ _ h1 g hg

/-- The law is preserved by the per-year waste split pass. -/
theorem processWasteHeatFlows_law (gd : GraphData)
    (h : ∀ g ∈ gd.graph, g.stroke = g.value * SCALE) :
    ∀ g ∈ (GraphService.processWasteHeatFlows gd).graph,
      g.stroke = g.value * SCALE := by
  unfold GraphService.processWasteHeatFlows
  dsimp only
  intro g hg
  exact foldl_preserves (fun p : List GraphStroke × Option GraphStroke =>
      ∀ g' ∈ p.1, g'.stroke = g'.value * SCALE)
    _ (fun p a hp => wasteStep_law p a hp)
    _ (gd.graph, none) h g hg

/-- C3: for every GraphStroke of every year after the full pipeline of the
Flow Geometry Engine, stroke equals value * SCALE exactly - waste-heat
clones included. -/
theorem stroke_value_law (cfg : ConfigM) (input : List EnergyRec) :
    ∀ gd ∈ (GraphService.buildGraphs cfg input).1, ∀ g ∈ gd.graph,
      g.stroke = g.value * SCALE := by
  intro gd hgd
  unfold GraphService.buildGraphs at hgd
  dsimp only at hgd
  rcases List.mem_map.mp hgd with ⟨gd3, h3, rfl⟩
  rcases List.mem_map.mp h3 with ⟨gd2, h2, rfl⟩
  rcases List.mem_map.mp h2 with ⟨gd1, h1, rfl⟩
  rcases List.mem_map.mp h1 with ⟨gd0, h0, rfl⟩
  apply processWasteHeatFlows_law
  apply spaceUpsAndDowns_law
  apply calculateGraphXDowns_law
  apply calculateGraphXUps_law
  unfold GraphService.calculateGraphY at h0
  dsimp only at h0
  rcases List.mem_map.mp h0 with ⟨pr, hpr, rfl⟩
  rcases List.mem_map.mp hpr with ⟨ir, hir, rfl⟩
  exact graphYearY_law cfg _ _ ir.2

/-! ### Graph lengths through the passes (for the C3 witness) -/

theorem fuels_enum_eq :
    FUELS.enum = [(0, EName.elec), (1, EName.heat), (2, EName.solar), (3, EName.nuclear),
      (4, EName.hydro), (5, EName.wind), (6, EName.geo), (7, EName.gas), (8, EName.coal),
      (9, EName.bio), (10, EName.petro)] := by
  decide

theorem boxesFor_elec :
    GraphService.boxesFor EName.elec =
      [EName.elec, EName.res, EName.ag, EName.indus, EName.trans, EName.heat] := by
  decide

/-- Bounding the graph length of a state-level conditional from below. -/
theorem le_ite_graph_len {c : Prop} [Decidable c] {A B : GraphService.YearYState} {n : Nat}
    (hA : n ≤ A.graph.length) (hB : n ≤ B.graph.length) :
    n ≤ (if c then A else B).graph.length := by
  by_cases hc : c
  · rw [if_pos hc]
    exact hA
  · rw [if_neg hc]
    exact hB

/-- The sectors loop never removes strokes. -/
theorem graphYBoxStep_len_mono (cfg : ConfigM) (boxTops : BoxTopsM) (totals : YearTotals)
    (wasteObj : Breakdown) (j : Nat) (fuelName : EName) (fuelObj : Breakdown)
    (st : GraphService.YearYState) (b : EName) :
    st.graph.length ≤ (GraphService.graphYBoxStep cfg boxTops totals wasteObj j fuelName
      fuelObj st b).graph.length := by
  unfold GraphService.graphYBoxStep
  by_cases h1 : fuelName = b
  · rw [if_pos h1]
  · rw [if_neg h1]
    by_cases h2 : cfg.hasHeatData = false ∧ b = EName.heat
    · rw [if_pos h2]
    · rw [if_neg h2]
      dsimp only
      repeat' apply le_ite_graph_len
      all_goals
        · dsimp only
          simp only [List.length_append, List.length_cons, List.length_nil]
          omega

theorem graphYBox_fold_len_mono (cfg : ConfigM) (boxTops : BoxTopsM) (totals : YearTotals)
    (wasteObj : Breakdown) (j : Nat) (fuelName : EName) (fuelObj : Breakdown) :
    ∀ (boxes : List EName) (st : GraphService.YearYState),
      st.graph.length ≤ (boxes.foldl (GraphService.graphYBoxStep cfg boxTops totals
        wasteObj j fuelName fuelObj) st).graph.length := by
  intro boxes
  induction boxes with
  | nil => intro st; exact le_rfl
  | cons b rest ih =>
    intro st
    rw [List.foldl_cons]
    exact le_trans
      (graphYBoxStep_len_mono cfg boxTops totals wasteObj j fuelName fuelObj st b) (ih _)

/-- The electricity-to-residential iteration appends at least one stroke. -/
theorem graphYBoxStep_elec_res_len (cfg : ConfigM) (boxTops : BoxTopsM)
    (totals : YearTotals) (wasteObj : Breakdown) (fuelObj : Breakdown)
    (st : GraphService.YearYState) :
    st.graph.length + 1 ≤ (GraphService.graphYBoxStep cfg boxTops totals wasteObj 0
      EName.elec fuelObj st EName.res).graph.length := by
  unfold GraphService.graphYBoxStep
  rw [if_neg (by decide), if_neg (by simp)]
  dsimp only
  repeat' apply le_ite_graph_len
  all_goals
    · dsimp only
      simp only [List.length_append, List.length_cons, List.length_nil]
      omega

/-- The electricity iteration of the fuels loop leaves a nonempty graph. -/
theorem graphYFuelStep_elec_len (cfg : ConfigM) (boxTops : BoxTopsM) (totals : YearTotals)
    (p : GraphService.YearYState × EnergyRec) :
    1 ≤ (GraphService.graphYFuelStep cfg boxTops totals p (0, EName.elec)).1.graph.length := by
  unfold GraphService.graphYFuelStep
  dsimp only
  rw [if_neg (by simp)]
  dsimp only
  rw [if_neg (by decide)]
  rw [boxesFor_elec, List.foldl_cons, graphYBoxStep_self, List.foldl_cons]
  exact le_trans (by omega : 1 ≤ p.1.graph.length + 1)
    (le_trans (graphYBoxStep_elec_res_len cfg boxTops totals _ _ p.1)
      (graphYBox_fold_len_mono cfg boxTops totals _ 0 EName.elec _ _ _))

theorem graphYFuelStep_len_mono (cfg : ConfigM) (boxTops : BoxTopsM) (totals : YearTotals)
    (p : GraphService.YearYState × EnergyRec) (jf : Nat × EName) :
    p.1.graph.length ≤
      (GraphService.graphYFuelStep cfg boxTops totals p jf).1.graph.length := by
  unfold GraphService.graphYFuelStep
  dsimp only
  split_ifs
  · exact le_rfl
  · exact graphYBox_fold_len_mono cfg boxTops totals _ jf.1 jf.2 _
      (GraphService.boxesFor jf.2) p.1
  · exact graphYBox_fold_len_mono cfg boxTops totals _ jf.1 jf.2 _
      (GraphService.boxesFor jf.2) p.1

theorem graphY_fold_len_mono (cfg : ConfigM) (boxTops : BoxTopsM) (totals : YearTotals) :
    ∀ (l : List (Nat × EName)) (p : GraphService.YearYState × EnergyRec),
      p.1.graph.length ≤
        (l.foldl (GraphService.graphYFuelStep cfg boxTops totals) p).1.graph.length := by
  intro l
  induction l with
  | nil => intro p; exact le_rfl
  | cons jf rest ih =>
    intro p
    rw [List.foldl_cons]
    exact le_trans (graphYFuelStep_len_mono cfg boxTops totals p jf) (ih _)

/-- Every year of the Y pass produces a nonempty graph (the electricity
iteration always appends). -/
theorem pass1_graph_len_pos (cfg : ConfigM) (summary : SummaryM) (iT : YearTotals)
    (r : EnergyRec) :
    0 < (GraphService.graphYearY cfg summary iT r).1.graph.length := by
  unfold GraphService.graphYearY
  dsimp only
  rw [fuels_enum_eq, List.foldl_cons]
  exact lt_of_lt_of_le Nat.zero_lt_one
    (le_trans (graphYFuelStep_elec_len cfg summary.boxTops _ _)
      (graphY_fold_len_mono cfg summary.boxTops _ _ _))

theorem xUps_graph_length (cfg : ConfigM) (gd : GraphData) :
    (GraphService.calculateGraphXUps cfg gd).graph.length = gd.graph.length := by
  unfold GraphService.calculateGraphXUps
  dsimp only
  exact foldl_preserves (fun p : List GraphStroke × OffY × Option EName =>
      p.1.length = gd.graph.length)
    _ (fun p a hp => by
        unfold GraphService.xUpsStep
        dsimp only at hp ⊢
        rw [List.length_set]
        exact hp)
    _ (gd.graph, gd.offsets.y, none) rfl

theorem xDowns_graph_length (cfg : ConfigM) (gd : GraphData) :
    (GraphService.calculateGraphXDowns cfg gd).graph.length = gd.graph.length := by
  unfold GraphService.calculateGraphXDowns
  dsimp only
  exact foldl_preserves (fun p : List GraphStroke × OffY × Option EName =>
      p.1.length = gd.graph.length)
    _ (fun p a hp => by
        unfold GraphService.xDownsStep
        dsimp only at hp ⊢
        rw [List.length_set]
        exact hp)
    _ (gd.graph, gd.offsets.y, none) rfl

theorem space_graph_length (cfg : ConfigM) (gd : GraphData) :
    (GraphService.spaceUpsAndDowns cfg gd).graph.length = gd.graph.length := by
  unfold GraphService.spaceUpsAndDowns
  dsimp only
  exact foldl_preserves (fun a : List GraphStroke => a.length = gd.graph.length)
    _ (fun a k ha => by dsimp only; rw [List.length_set]; exact ha)
    _ _
    (foldl_preserves (fun p : List GraphStroke × Option GraphStroke =>
        p.1.length = gd.graph.length)
      _ (fun p jk hp => by
          obtain ⟨arr, po⟩ := p
          unfold GraphService.spaceStep
          dsimp only at hp ⊢
          by_cases hjk : jk.1 = 0
          · rw [if_pos hjk]
            exact hp
          · rw [if_neg hjk]
            rcases po with _ | prev
            · exact hp
            · dsimp only
              rw [List.length_set]
              exact hp)
      _ _ ((List.perm_insertionSort _ _).length_eq))

theorem waste_graph_length (gd : GraphData) :
    (GraphService.processWasteHeatFlows gd).graph.length = gd.graph.length := by
  unfold GraphService.processWasteHeatFlows
  dsimp only
  exact foldl_preserves (fun p : List GraphStroke × Option GraphStroke =>
      p.1.length = gd.graph.length)
    _ (fun p a hp => by
        obtain ⟨arr, po⟩ := p
        unfold GraphService.wasteStep
        dsimp only at hp ⊢
        split_ifs
        · rw [List.length_set]
          exact hp
        · exact hp)
    _ (gd.graph, none) rfl

/-- Every year the pipeline outputs has a nonempty graph. -/
theorem buildGraphs_graph_ne_nil (cfg : ConfigM) (input : List EnergyRec) :
    ∀ gd ∈ (GraphService.buildGraphs cfg input).1, gd.graph ≠ [] := by
  intro gd hgd
  unfold GraphService.buildGraphs at hgd
  dsimp only at hgd
  rcases List.mem_map.mp hgd with ⟨gd3, h3, rfl⟩
  rcases List.mem_map.mp h3 with ⟨gd2, h2, rfl⟩
  rcases List.mem_map.mp h2 with ⟨gd1, h1, rfl⟩
  rcases List.mem_map.mp h1 with ⟨gd0, h0, rfl⟩
  have hlen : (GraphService.processWasteHeatFlows (GraphService.spaceUpsAndDowns cfg
      (GraphService.calculateGraphXDowns cfg
        (GraphService.calculateGraphXUps cfg gd0)))).graph.length = gd0.graph.length := by
    rw [waste_graph_length, space_graph_length, xDowns_graph_length, xUps_graph_length]
  have hpos : 0 < gd0.graph.length := by
    unfold GraphService.calculateGraphY at h0
    dsimp only at h0
    rcases List.mem_map.mp h0 with ⟨pr, hpr, rfl⟩
    rcases List.mem_map.mp hpr with ⟨ir, hir, rfl⟩
    exact pass1_graph_len_pos cfg _ _ ir.2
  intro hnil
  rw [hnil] at hlen
  simp only [List.length_nil] at hlen
  omega

/-- Placeholder GraphData for default head reads in the C3 witness. -/
def junkGraphData : GraphData :=
  { year := 0, graph := [], totals := junkTotals, flows := junkFlows,
    offsets := { x := ⟨0, 0, 0, 0, 0, 0, 0, 0, 0⟩, y := ⟨0, 0, 0, 0, 0, 0⟩ } }

/-- The first year of the graph pipeline on the one-record dataset. -/
def gdW : GraphData := (GraphService.buildGraphs cfgW [mkRec 1]).1.headD junkGraphData

/-- C3 witness: the stroke-value law read off the first stroke of the first
year of the pipeline on the one-record dataset. -/
theorem stroke_value_law_witness :
    (gdW.graph.headD junkStroke).stroke = (gdW.graph.headD junkStroke).value * SCALE := by
  have hlen : (GraphService.buildGraphs cfgW [mkRec 1]).1.length = 1 := by
    unfold GraphService.buildGraphs GraphService.calculateGraphY
    dsimp only
    rw [sortByYear_singleton]
    simp
  have hne : (GraphService.buildGraphs cfgW [mkRec 1]).1 ≠ [] := by
    intro h0
    rw [h0] at hlen
    simp at hlen
  have hgd : gdW ∈ (GraphService.buildGraphs cfgW [mkRec 1]).1 := by
    unfold gdW
    exact headD_mem hne junkGraphData
  have hgne : gdW.graph ≠ [] := buildGraphs_graph_ne_nil cfgW [mkRec 1] gdW hgd
  exact stroke_value_law cfgW [mkRec 1] gdW hgd _ (headD_mem hgne junkStroke)
